import Mathlib

/-!
Shallow embedding of the STMEngine rendering core (pool allocators, mesh
loaders, MD2 animation evaluator, transform hierarchy, vertex transform
stage, rasterizer) and proofs about the specification's claims.

C `float` values are modelled as real numbers; machine integers are
modelled as `Nat`/`Int`, with an explicit `% 2^32` where 32-bit wrap-around
matters.
-/

namespace STMEngine

/-! ## Engine constants (engine_config.h, mesh.h) -/

def MAX_TOTAL_VERTICES : Nat := 40960
def MAX_TOTAL_INDICES : Nat := 81920
def MAX_MD2_FRAMES : Nat := 200
def MAX_MD2_VERTICES : Nat := 204800
def MAX_MESHES : Nat := 64
def MAX_ENTITIES : Nat := 256
def DISPLAY_WIDTH : Nat := 1240
def DISPLAY_HEIGHT : Nat := 680

/-- The sentinel `0xFFFFFFFF` returned by every allocator and loader on
failure. -/
def NO_SPACE : Nat := 4294967295

/-- `2^32`, the modulus of `uint32_t` arithmetic. -/
def U32 : Nat := 4294967296

/-! ## Pool allocator (mesh.cpp `AllocVertices` .. `AllocMD2Vertices`,
loader_md2.cpp `AllocMD2UVs`)

Every pool allocator has the shape

    uint32_t AllocX(uint32_t count) {
        if (g_x_used + count > CAPACITY) return 0xFFFFFFFF;
        uint32_t start = g_x_used;
        g_x_used += count;
        return start;
    }

`used` and `count` are `uint32_t`, so the sum `used + count` is computed
modulo `2^32`.  `poolAlloc capacity used count` returns the pair
(result, new used count). -/

def poolAlloc (capacity used count : Nat) : Nat × Nat :=
  let sum := (used + count) % U32
  if capacity < sum then (NO_SPACE, used)
  else (used, sum)

/-- mesh.cpp `AllocVertices`: bump allocation from the vertex pool. -/
def AllocVertices (used count : Nat) : Nat × Nat :=
  poolAlloc MAX_TOTAL_VERTICES used count

/-- mesh.cpp `AllocIndices`: bump allocation from the index pool. -/
def AllocIndices (used count : Nat) : Nat × Nat :=
  poolAlloc MAX_TOTAL_INDICES used count

/-- mesh.cpp `AllocFrames`: bump allocation from the MD2 frame pool. -/
def AllocFrames (used count : Nat) : Nat × Nat :=
  poolAlloc MAX_MD2_FRAMES used count

/-- mesh.cpp `AllocMD2Vertices`: bump allocation from the compressed MD2
vertex pool. -/
def AllocMD2Vertices (used count : Nat) : Nat × Nat :=
  poolAlloc MAX_MD2_VERTICES used count

/-- loader_md2.cpp `AllocMD2UVs`: bump allocation from the per-triangle UV
pool (capacity `MAX_MD2_VERTICES`). -/
def AllocMD2UVs (used count : Nat) : Nat × Nat :=
  poolAlloc MAX_MD2_VERTICES used count

/-- The `used` counter after a sequence of `allocate(n)` calls against one
pool (each call's new `used` feeds the next call). -/
def runAllocs (capacity used : Nat) (reqs : List Nat) : Nat :=
  reqs.foldl (fun u n => (poolAlloc capacity u n).2) used

/-- `used ≤ capacity` is preserved by any allocation, even a wrapping one. -/
theorem poolAlloc_le (capacity used count : Nat) (h : used ≤ capacity) :
    (poolAlloc capacity used count).2 ≤ capacity := by
  unfold poolAlloc
  dsimp only
  split
  · exact h
  · omega

theorem runAllocs_le (capacity used : Nat) (reqs : List Nat)
    (h : used ≤ capacity) : runAllocs capacity used reqs ≤ capacity := by
  induction reqs generalizing used with
  | nil => exact h
  | cons n rest ih =>
      exact ih _ (poolAlloc_le capacity used n h)

/-- The amended contract of one `allocate(n)` call at state `used`, together
with the `used ≤ capacity` invariant over arbitrary call sequences, and the
fact that all five pool allocators are `poolAlloc` at their capacities. -/
def PoolAllocClaim (capacity used n : Nat) : Prop :=
  ((poolAlloc capacity used n).1 ≠ NO_SPACE ↔ used + n ≤ capacity)
  ∧ ((poolAlloc capacity used n).1 ≠ NO_SPACE →
      (poolAlloc capacity used n).1 = used ∧
      (poolAlloc capacity used n).2 = used + n)
  ∧ ((poolAlloc capacity used n).1 = NO_SPACE →
      (poolAlloc capacity used n).2 = used)
  ∧ (used = capacity → 1 ≤ n → (poolAlloc capacity used n).1 = NO_SPACE)
  ∧ (∀ reqs : List Nat, runAllocs capacity used reqs ≤ capacity)
  ∧ AllocVertices = poolAlloc MAX_TOTAL_VERTICES
  ∧ AllocIndices = poolAlloc MAX_TOTAL_INDICES
  ∧ AllocFrames = poolAlloc MAX_MD2_FRAMES
  ∧ AllocMD2Vertices = poolAlloc MAX_MD2_VERTICES
  ∧ AllocMD2UVs = poolAlloc MAX_MD2_VERTICES

/-- C1 (amended): for every pool allocator, if `used ≤ capacity` holds and
`used + n` does not wrap in 32-bit arithmetic, then allocation succeeds
exactly when `used + n ≤ capacity`, a successful call returns the previous
`used` and bumps `used` by exactly `n`, a `NO_SPACE` result leaves `used`
unchanged, and once `used` equals the capacity every allocation of `n ≥ 1`
elements fails (an `allocate(0)` call still succeeds); `used ≤ capacity` is
preserved by every call sequence. -/
theorem pool_allocator_correct (capacity used n : Nat)
    (hcap : capacity < NO_SPACE) (hinv : used ≤ capacity)
    (hnw : used + n < U32) :
    PoolAllocClaim capacity used n := by
  have hmod : (used + n) % U32 = used + n := Nat.mod_eq_of_lt hnw
  have hNS : NO_SPACE = 4294967295 := rfl
  refine ⟨?_, ?_, ?_, ?_, fun reqs => runAllocs_le _ _ _ hinv,
    rfl, rfl, rfl, rfl, rfl⟩ <;>
    · unfold poolAlloc
      simp only [hmod]
      split <;> omega

/-- C1 counterexample to the claim as stated: with the vertex pool full
(`used = MAX_TOTAL_VERTICES`), an `allocate(0)` call still succeeds,
returning the current used count rather than `NO_SPACE`; so it is false
that once `used` equals capacity every further allocation (with any
`n ≥ 0`) fails. -/
theorem pool_alloc_zero_at_full_succeeds :
    (AllocVertices MAX_TOTAL_VERTICES 0).1 ≠ NO_SPACE ∧
    (AllocVertices MAX_TOTAL_VERTICES 0).1 = MAX_TOTAL_VERTICES ∧
    (AllocVertices MAX_TOTAL_VERTICES 0).2 = MAX_TOTAL_VERTICES := by
  refine ⟨?_, rfl, rfl⟩
  decide

/-- Witness for `pool_allocator_correct` at capacity 40960, `used = 5`,
`n = 7`. -/
theorem pool_allocator_correct_witness :
    ((40960:Nat) < NO_SPACE ∧ (5:Nat) ≤ 40960 ∧ (5:Nat) + 7 < U32) ∧
    PoolAllocClaim 40960 5 7 :=
  ⟨by refine ⟨?_, ?_, ?_⟩ <;> decide,
   pool_allocator_correct 40960 5 7 (by decide) (by decide) (by decide)⟩

/-! ## Vector and matrix library (math3d.h)

`float` is modelled as `ℝ`.  A `Mat4` is the flat 16-element column-major
array `float m[16]` of the source: the mathematical entry in row `r`,
column `c` is `m[c*4 + r]`. -/

structure Vec2 where
  (x y : ℝ)

structure Vec3 where
  (x y z : ℝ)

structure Vec4 where
  (x y z w : ℝ)

def EPSILON : ℝ := 0.0001

def Vec3_Zero : Vec3 := ⟨0, 0, 0⟩

def Vec3_Add (a b : Vec3) : Vec3 := ⟨a.x + b.x, a.y + b.y, a.z + b.z⟩

def Vec3_Sub (a b : Vec3) : Vec3 := ⟨a.x - b.x, a.y - b.y, a.z - b.z⟩

def Vec3_Scale (v : Vec3) (s : ℝ) : Vec3 := ⟨v.x * s, v.y * s, v.z * s⟩

noncomputable def Vec3_Length (v : Vec3) : ℝ :=
  Real.sqrt (v.x * v.x + v.y * v.y + v.z * v.z)

/-- math3d.h `Vec3_Normalize`: divide by the length when it exceeds
`EPSILON`, otherwise return the zero vector. -/
noncomputable def Vec3_Normalize (v : Vec3) : Vec3 :=
  if EPSILON < Vec3_Length v then
    ⟨v.x * (1 / Vec3_Length v), v.y * (1 / Vec3_Length v),
     v.z * (1 / Vec3_Length v)⟩
  else ⟨0, 0, 0⟩

def Vec3_Lerp (a b : Vec3) (t : ℝ) : Vec3 :=
  ⟨a.x + (b.x - a.x) * t, a.y + (b.y - a.y) * t, a.z + (b.z - a.z) * t⟩

noncomputable def Vec3_Min (a b : Vec3) : Vec3 :=
  ⟨if a.x < b.x then a.x else b.x, if a.y < b.y then a.y else b.y,
   if a.z < b.z then a.z else b.z⟩

noncomputable def Vec3_Max (a b : Vec3) : Vec3 :=
  ⟨if b.x < a.x then a.x else b.x, if b.y < a.y then a.y else b.y,
   if b.z < a.z then a.z else b.z⟩

/-- The flat column-major `float m[16]` of math3d.h. -/
def Mat4 : Type := Fin 16 → ℝ

/-- Flat index of column `col`, row `row` (`m[col*4 + row]`). -/
def mIdx (col row : Fin 4) : Fin 16 :=
  ⟨col.val * 4 + row.val, by omega⟩

def Mat4_Identity : Mat4 := fun i =>
  if i.val = 0 ∨ i.val = 5 ∨ i.val = 10 ∨ i.val = 15 then 1 else 0

/-- math3d.h `Mat4_Multiply`:
`r.m[col*4+row] = Σ_k a.m[k*4+row] * b.m[col*4+k]`, i.e. the mathematical
product `a · b` in the column-vector convention. -/
def Mat4_Multiply (a b : Mat4) : Mat4 := fun i =>
  let col : Fin 4 := ⟨i.val / 4, by have := i.isLt; omega⟩
  let row : Fin 4 := ⟨i.val % 4, by have := i.isLt; omega⟩
  a (mIdx 0 row) * b (mIdx col 0) +
  a (mIdx 1 row) * b (mIdx col 1) +
  a (mIdx 2 row) * b (mIdx col 2) +
  a (mIdx 3 row) * b (mIdx col 3)

/-- math3d.h `Mat4_MultiplyVec4` (matrix applied to a column vector). -/
def Mat4_MultiplyVec4 (m : Mat4) (v : Vec4) : Vec4 :=
  ⟨m 0 * v.x + m 4 * v.y + m 8 * v.z + m 12 * v.w,
   m 1 * v.x + m 5 * v.y + m 9 * v.z + m 13 * v.w,
   m 2 * v.x + m 6 * v.y + m 10 * v.z + m 14 * v.w,
   m 3 * v.x + m 7 * v.y + m 11 * v.z + m 15 * v.w⟩

/-- math3d.h `Mat4_Translation`: identity with `m[12] = x`, `m[13] = y`,
`m[14] = z`. -/
def Mat4_Translation (x y z : ℝ) : Mat4 := fun i =>
  if i.val = 12 then x
  else if i.val = 13 then y
  else if i.val = 14 then z
  else Mat4_Identity i

/-- math3d.h `Mat4_Scale`: identity with `m[0] = x`, `m[5] = y`,
`m[10] = z`. -/
def Mat4_Scale (x y z : ℝ) : Mat4 := fun i =>
  if i.val = 0 then x
  else if i.val = 5 then y
  else if i.val = 10 then z
  else Mat4_Identity i

/-- math3d.h `Mat4_RotationX`: identity with `m[5] = c`, `m[9] = -s`,
`m[6] = s`, `m[10] = c`. -/
noncomputable def Mat4_RotationX (rad : ℝ) : Mat4 := fun i =>
  if i.val = 5 then Real.cos rad
  else if i.val = 9 then -Real.sin rad
  else if i.val = 6 then Real.sin rad
  else if i.val = 10 then Real.cos rad
  else Mat4_Identity i

/-- math3d.h `Mat4_RotationY`: identity with `m[0] = c`, `m[8] = s`,
`m[2] = -s`, `m[10] = c`. -/
noncomputable def Mat4_RotationY (rad : ℝ) : Mat4 := fun i =>
  if i.val = 0 then Real.cos rad
  else if i.val = 8 then Real.sin rad
  else if i.val = 2 then -Real.sin rad
  else if i.val = 10 then Real.cos rad
  else Mat4_Identity i

/-- math3d.h `Mat4_RotationZ`: identity with `m[0] = c`, `m[4] = -s`,
`m[1] = s`, `m[5] = c`. -/
noncomputable def Mat4_RotationZ (rad : ℝ) : Mat4 := fun i =>
  if i.val = 0 then Real.cos rad
  else if i.val = 4 then -Real.sin rad
  else if i.val = 1 then Real.sin rad
  else if i.val = 5 then Real.cos rad
  else Mat4_Identity i

/-! ## Local matrix recomputation (entity.cpp `UpdateLocalMatrix`)

The source builds `T`, `Rx`, `Ry`, `Rz`, `S` and combines them as

    Mat4_Multiply(&tmp, &Ry, &Rx);            // tmp  = Ry · Rx
    Mat4_Multiply(&Rx, &tmp, &Rz);            // Rx'  = (Ry · Rx) · Rz
    Mat4_Multiply(&tmp, &T, &Rx);             // tmp2 = T · Rx'
    Mat4_Multiply(&t->local_matrix, &tmp, &S);// local = tmp2 · S

(the source reuses the variables `Rx` and `tmp`; they are renamed
`rotQ` and `tmp2` here). -/
noncomputable def UpdateLocalMatrix (position rotation scl : Vec3) : Mat4 :=
  let T := Mat4_Translation position.x position.y position.z
  let Rx := Mat4_RotationX rotation.x
  let Ry := Mat4_RotationY rotation.y
  let Rz := Mat4_RotationZ rotation.z
  let S := Mat4_Scale scl.x scl.y scl.z
  let tmp := Mat4_Multiply Ry Rx
  let rotQ := Mat4_Multiply tmp Rz
  let tmp2 := Mat4_Multiply T rotQ
  Mat4_Multiply tmp2 S

/-- The local matrix as the specification words it:
`T(p) · (Rz(r.z)·Rx(r.x)·Ry(r.y)) · S(s)` (claim C2's stated multiplication
order), for comparison with `UpdateLocalMatrix`. -/
noncomputable def specLocalMatrix (position rotation scl : Vec3) : Mat4 :=
  Mat4_Multiply
    (Mat4_Multiply (Mat4_Translation position.x position.y position.z)
      (Mat4_Multiply
        (Mat4_Multiply (Mat4_RotationZ rotation.z) (Mat4_RotationX rotation.x))
        (Mat4_RotationY rotation.y)))
    (Mat4_Scale scl.x scl.y scl.z)

/-! Bridge between the flat column-major representation and Mathlib
matrices. -/

/-- The mathematical 4×4 matrix represented by a flat column-major
`Mat4`. -/
def toMatrix (m : Mat4) : Matrix (Fin 4) (Fin 4) ℝ := fun r c => m (mIdx c r)

/-- Homogeneous translation matrix, written directly in the mathematical
(row, column) convention. -/
noncomputable def translationMatrix (x y z : ℝ) : Matrix (Fin 4) (Fin 4) ℝ :=
  !![1, 0, 0, x; 0, 1, 0, y; 0, 0, 1, z; 0, 0, 0, 1]

noncomputable def scaleMatrix (x y z : ℝ) : Matrix (Fin 4) (Fin 4) ℝ :=
  !![x, 0, 0, 0; 0, y, 0, 0; 0, 0, z, 0; 0, 0, 0, 1]

noncomputable def rotationXMatrix (rad : ℝ) : Matrix (Fin 4) (Fin 4) ℝ :=
  !![1, 0, 0, 0;
     0, Real.cos rad, -Real.sin rad, 0;
     0, Real.sin rad, Real.cos rad, 0;
     0, 0, 0, 1]

noncomputable def rotationYMatrix (rad : ℝ) : Matrix (Fin 4) (Fin 4) ℝ :=
  !![Real.cos rad, 0, Real.sin rad, 0;
     0, 1, 0, 0;
     -Real.sin rad, 0, Real.cos rad, 0;
     0, 0, 0, 1]

noncomputable def rotationZMatrix (rad : ℝ) : Matrix (Fin 4) (Fin 4) ℝ :=
  !![Real.cos rad, -Real.sin rad, 0, 0;
     Real.sin rad, Real.cos rad, 0, 0;
     0, 0, 1, 0;
     0, 0, 0, 1]

theorem toMatrix_mul (a b : Mat4) :
    toMatrix (Mat4_Multiply a b) = toMatrix a * toMatrix b := by
  ext r c
  simp only [Matrix.mul_apply, Fin.sum_univ_four]
  fin_cases r <;> fin_cases c <;> rfl

theorem toMatrix_translation (x y z : ℝ) :
    toMatrix (Mat4_Translation x y z) = translationMatrix x y z := by
  ext r c
  fin_cases r <;> fin_cases c <;> rfl

theorem toMatrix_scale (x y z : ℝ) :
    toMatrix (Mat4_Scale x y z) = scaleMatrix x y z := by
  ext r c
  fin_cases r <;> fin_cases c <;> rfl

theorem toMatrix_rotationX (rad : ℝ) :
    toMatrix (Mat4_RotationX rad) = rotationXMatrix rad := by
  ext r c
  fin_cases r <;> fin_cases c <;> rfl

theorem toMatrix_rotationY (rad : ℝ) :
    toMatrix (Mat4_RotationY rad) = rotationYMatrix rad := by
  ext r c
  fin_cases r <;> fin_cases c <;> rfl

theorem toMatrix_rotationZ (rad : ℝ) :
    toMatrix (Mat4_RotationZ rad) = rotationZMatrix rad := by
  ext r c
  fin_cases r <;> fin_cases c <;> rfl

theorem specLocalMatrix_eq (p r s : Vec3) :
    toMatrix (specLocalMatrix p r s) =
      translationMatrix p.x p.y p.z *
        (rotationZMatrix r.z * rotationXMatrix r.x * rotationYMatrix r.y) *
        scaleMatrix s.x s.y s.z := by
  unfold specLocalMatrix
  rw [toMatrix_mul, toMatrix_mul, toMatrix_mul, toMatrix_mul,
    toMatrix_translation, toMatrix_scale, toMatrix_rotationX,
    toMatrix_rotationY, toMatrix_rotationZ, mul_assoc]

/-- C2 (amended): for every dirty entity, `UpdateLocalMatrix` recomputes the
local matrix as the product `T(p) · (Ry(r.y)·Rx(r.x)·Rz(r.z)) · S(s)` —
translation times the `Ry·Rx·Rz`-composed rotation (in the column-vector
convention of `Mat4_MultiplyVec4`) times scale, not the `Rz·Rx·Ry`
composition stated by the claim. -/
theorem updateLocalMatrix_factorization (p r s : Vec3) :
    toMatrix (UpdateLocalMatrix p r s) =
      translationMatrix p.x p.y p.z *
        (rotationYMatrix r.y * rotationXMatrix r.x * rotationZMatrix r.z) *
        scaleMatrix s.x s.y s.z := by
  unfold UpdateLocalMatrix
  rw [toMatrix_mul, toMatrix_mul, toMatrix_mul, toMatrix_mul,
    toMatrix_translation, toMatrix_scale, toMatrix_rotationX,
    toMatrix_rotationY, toMatrix_rotationZ]

/-- C2 counterexample: at position `(0,0,0)`, rotation `(π/2, π/2, 0)` and
scale `(1,1,1)`, the matrix computed by `UpdateLocalMatrix` differs from
the claimed product `T · (Rz·Rx·Ry) · S` (entry row 0, column 1 is `1` in
the code's matrix but `0` in the claimed one). -/
theorem updateLocalMatrix_order_counterexample :
    UpdateLocalMatrix ⟨0, 0, 0⟩ ⟨Real.pi / 2, Real.pi / 2, 0⟩ ⟨1, 1, 1⟩ ≠
      specLocalMatrix ⟨0, 0, 0⟩ ⟨Real.pi / 2, Real.pi / 2, 0⟩ ⟨1, 1, 1⟩ := by
  intro h
  have h2 := congrArg toMatrix h
  rw [updateLocalMatrix_factorization, specLocalMatrix_eq] at h2
  have h3 := congrFun (congrFun h2 0) 1
  simp [translationMatrix, rotationXMatrix, rotationYMatrix, rotationZMatrix,
    scaleMatrix, Matrix.mul_apply, Fin.sum_univ_four,
    Real.cos_pi_div_two, Real.sin_pi_div_two] at h3

/-! ## Animator advance (entity.cpp `Entity_UpdateAnimators`)

`Animator_t` of texture.h; frame indices are `uint32_t`, modelled as `Nat`
(the `next_frame + 1` increment stays far below `2^32` for MD2 clips). -/

structure Animator where
  (current_frame next_frame : Nat)
  (interpolation frame_time playback_speed : ℝ)
  (start_frame end_frame : Nat)
  (is_playing is_looping : Bool)

/-- The body of the `Entity_UpdateAnimators` loop for one animator:
accumulate `dt * playback_speed` into `frame_time`; if it reaches the 10 Hz
frame period, subtract one period and advance the frame pair (wrapping to
`start_frame` when looping, clamping to `end_frame` and stopping
otherwise); finally `interpolation = frame_time / frame_duration`.
Non-playing animators are skipped (`continue`). -/
noncomputable def UpdateAnimator (anim : Animator) (dt : ℝ) : Animator :=
  if anim.is_playing = false then anim
  else
    let ft := anim.frame_time + dt * anim.playback_speed
    let frame_duration : ℝ := 1 / 10
    if frame_duration ≤ ft then
      let ft2 := ft - frame_duration
      let cur := anim.next_frame
      let nxt := anim.next_frame + 1
      if anim.end_frame < nxt then
        if anim.is_looping then
          { anim with
            frame_time := ft2
            current_frame := cur
            next_frame := anim.start_frame
            interpolation := ft2 / frame_duration }
        else
          { anim with
            frame_time := ft2
            current_frame := cur
            next_frame := anim.end_frame
            is_playing := false
            interpolation := ft2 / frame_duration }
      else
        { anim with
          frame_time := ft2
          current_frame := cur
          next_frame := nxt
          interpolation := ft2 / frame_duration }
    else
      { anim with
        frame_time := ft
        interpolation := ft / frame_duration }

/-- One slot of the entity table, as far as `Entity_UpdateAnimators` reads
it: `valid` is `g_entities[i].id != INVALID_ENTITY`, `has_animator` is the
`COMP_ANIMATOR` bit. -/
structure AnimEntity where
  (valid has_animator : Bool)
  (animator : Animator)

/-- entity.cpp `Entity_UpdateAnimators`: run the loop body on every valid
entity that has the animator component. -/
noncomputable def Entity_UpdateAnimators (dt : ℝ) (es : List AnimEntity) :
    List AnimEntity :=
  es.map fun e =>
    if e.valid && e.has_animator then
      { e with animator := UpdateAnimator e.animator dt }
    else e

/-- C4 (amended): for a playing animator whose pending `frame_time` is
non-negative and whose accumulated time `frame_time + dt·playback_speed`
stays below two 10 Hz frame periods (in particular whenever
`dt·playback_speed` is less than one period, starting from a well-formed
state), the interpolation fraction after `Entity_UpdateAnimators` lies in
`[0,1)` and equals the remaining fractional time within the frame period.
Without the two-period bound the single `if` subtracts at most one period
and the fraction can reach or exceed 1. -/
theorem updateAnimator_interpolation_bound (a : Animator) (dt : ℝ)
    (hplay : a.is_playing = true)
    (hft : 0 ≤ a.frame_time)
    (hdt : 0 ≤ dt * a.playback_speed)
    (hlt : a.frame_time + dt * a.playback_speed < 2 * (1 / 10)) :
    (UpdateAnimator a dt).interpolation ∈ Set.Ico (0 : ℝ) 1 ∧
    (UpdateAnimator a dt).interpolation =
      (UpdateAnimator a dt).frame_time / (1 / 10) := by
  unfold UpdateAnimator
  rw [hplay]
  simp only [Bool.true_eq_false, if_false]
  split_ifs with h1 h2 h3 <;>
    refine ⟨Set.mem_Ico.mpr ⟨div_nonneg (by linarith) (by norm_num), ?_⟩, rfl⟩ <;>
    · rw [div_lt_one (by norm_num : (0:ℝ) < 1 / 10)]
      linarith

/-- Concrete animator for the C4 counterexample: fresh (`frame_time = 0`),
playing, speed 1, clip `[0,5]`, looping. -/
def animC4 : Animator :=
  ⟨0, 1, 0, 0, 1, 0, 5, true, true⟩

/-- C4 counterexample: updating `animC4` with `dt = 0.2 ≥ 0` leaves the
interpolation fraction at exactly `1`, outside the claimed `[0,1)` (the
single `if` subtracts only one frame period from the accumulated `0.2`). -/
theorem updateAnimator_counterexample :
    (UpdateAnimator animC4 (1 / 5)).interpolation = 1 ∧
    (UpdateAnimator animC4 (1 / 5)).interpolation ∉ Set.Ico (0 : ℝ) 1 := by
  have h : (UpdateAnimator animC4 (1 / 5)).interpolation = 1 := by
    unfold UpdateAnimator animC4
    norm_num
  exact ⟨h, by rw [h]; simp⟩

/-- Playing animator with pending `frame_time = 1/20` for the C4 witness. -/
noncomputable def animC4w : Animator :=
  ⟨0, 1, 0, 1/20, 1, 0, 5, true, true⟩

/-- Witness for `updateAnimator_interpolation_bound` at a playing animator
with `frame_time = 1/20`, speed 1 and `dt = 1/20`. -/
theorem updateAnimator_interpolation_bound_witness :
    ((animC4w.is_playing = true) ∧ (0:ℝ) ≤ animC4w.frame_time ∧
      (0:ℝ) ≤ (1/20) * animC4w.playback_speed ∧
      animC4w.frame_time + (1/20) * animC4w.playback_speed < 2 * (1/10)) ∧
    ((UpdateAnimator animC4w (1/20)).interpolation ∈ Set.Ico (0 : ℝ) 1 ∧
      (UpdateAnimator animC4w (1/20)).interpolation =
        (UpdateAnimator animC4w (1/20)).frame_time / (1 / 10)) :=
  ⟨⟨rfl, by norm_num [animC4w], by norm_num [animC4w], by norm_num [animC4w]⟩,
   updateAnimator_interpolation_bound animC4w (1/20) rfl
     (by norm_num [animC4w]) (by norm_num [animC4w]) (by norm_num [animC4w])⟩

/-! ## Mesh slots and the MD2 animation evaluator
(mesh.h, mesh.cpp, loader_md2.cpp)

Pool contents are modelled as lists indexed from 0 (the C arrays
`g_frame_pool`, `g_md2_vertex_pool`, `g_meshes`); out-of-range array reads
use `List.getD` with an all-zero default. -/

/-- mesh.h `MD2Vertex_t`: three quantized `uint8` coordinates plus a
`uint8` normal-table index. -/
structure MD2Vertex where
  (x y z : Nat)
  (normal_index : Nat)

/-- mesh.h `MD2FrameDesc_t`. -/
structure MD2FrameDesc where
  (scale translate : Vec3)
  (vertex_start vertex_count : Nat)

/-- mesh.h `StaticMeshDesc_t`. -/
structure StaticMeshDesc where
  (vertex_start vertex_count index_start index_count : Nat)
  (bounds_center : Vec3)
  (bounds_radius : ℝ)

/-- mesh.h `AnimatedMeshDesc_t`. -/
structure AnimatedMeshDesc where
  (frame_start frame_count index_start index_count : Nat)
  (verts_per_frame uv_start uv_count : Nat)

/-- mesh.h `MeshSlot_t`: the `type` byte (0 = free, 1 = static,
2 = animated) discriminates the union. -/
inductive MeshSlot where
  | free : MeshSlot
  | staticMesh : StaticMeshDesc → MeshSlot
  | animated : AnimatedMeshDesc → MeshSlot

/-- The global pool state read by the MD2 evaluators. -/
structure MeshState where
  (meshes : List MeshSlot)
  (frame_pool : List MD2FrameDesc)
  (md2_vertex_pool : List MD2Vertex)

def defaultFrameDesc : MD2FrameDesc := ⟨Vec3_Zero, Vec3_Zero, 0, 0⟩

def defaultMD2Vertex : MD2Vertex := ⟨0, 0, 0, 0⟩

/-- mesh.cpp `Mesh_Get`: `NULL` when the id is out of range or the slot is
free. -/
def Mesh_Get (st : MeshState) (id : Nat) : Option MeshSlot :=
  if MAX_MESHES ≤ id then none
  else
    match st.meshes.getD id MeshSlot.free with
    | MeshSlot.free => none
    | s => some s

def md2NormalsChunk0 : List Vec3 :=
  [⟨-0.525731, 0.000000, 0.850651⟩, ⟨-0.442863, 0.238856, 0.864188⟩,
   ⟨-0.295242, 0.000000, 0.955423⟩, ⟨-0.309017, 0.500000, 0.809017⟩,
   ⟨-0.162460, 0.262866, 0.951056⟩, ⟨0.000000, 0.000000, 1.000000⟩,
   ⟨0.000000, 0.850651, 0.525731⟩, ⟨-0.147621, 0.716567, 0.681718⟩,
   ⟨0.147621, 0.716567, 0.681718⟩, ⟨0.000000, 0.525731, 0.850651⟩,
   ⟨0.309017, 0.500000, 0.809017⟩, ⟨0.525731, 0.000000, 0.850651⟩,
   ⟨0.295242, 0.000000, 0.955423⟩, ⟨0.442863, 0.238856, 0.864188⟩,
   ⟨0.162460, 0.262866, 0.951056⟩, ⟨-0.681718, 0.147621, 0.716567⟩,
   ⟨-0.809017, 0.309017, 0.500000⟩, ⟨-0.587785, 0.425325, 0.688191⟩,
   ⟨-0.850651, 0.525731, 0.000000⟩, ⟨-0.864188, 0.442863, 0.238856⟩,
   ⟨-0.716567, 0.681718, 0.147621⟩, ⟨-0.688191, 0.587785, 0.425325⟩,
   ⟨-0.500000, 0.809017, 0.309017⟩, ⟨-0.238856, 0.864188, 0.442863⟩,
   ⟨-0.425325, 0.688191, 0.587785⟩, ⟨-0.716567, 0.681718, -0.147621⟩,
   ⟨-0.500000, 0.809017, -0.309017⟩]

def md2NormalsChunk1 : List Vec3 :=
  [⟨-0.525731, 0.850651, 0.000000⟩, ⟨0.000000, 0.850651, -0.525731⟩,
   ⟨-0.238856, 0.864188, -0.442863⟩, ⟨0.000000, 0.955423, -0.295242⟩,
   ⟨-0.262866, 0.951056, -0.162460⟩, ⟨0.000000, 1.000000, 0.000000⟩,
   ⟨0.000000, 0.955423, 0.295242⟩, ⟨-0.262866, 0.951056, 0.162460⟩,
   ⟨0.238856, 0.864188, 0.442863⟩, ⟨0.262866, 0.951056, 0.162460⟩,
   ⟨0.500000, 0.809017, 0.309017⟩, ⟨0.238856, 0.864188, -0.442863⟩,
   ⟨0.262866, 0.951056, -0.162460⟩, ⟨0.500000, 0.809017, -0.309017⟩,
   ⟨0.850651, 0.525731, 0.000000⟩, ⟨0.716567, 0.681718, 0.147621⟩,
   ⟨0.716567, 0.681718, -0.147621⟩, ⟨0.525731, 0.850651, 0.000000⟩,
   ⟨0.425325, 0.688191, 0.587785⟩, ⟨0.864188, 0.442863, 0.238856⟩,
   ⟨0.688191, 0.587785, 0.425325⟩, ⟨0.809017, 0.309017, 0.500000⟩,
   ⟨0.681718, 0.147621, 0.716567⟩, ⟨0.587785, 0.425325, 0.688191⟩,
   ⟨0.955423, 0.295242, 0.000000⟩, ⟨1.000000, 0.000000, 0.000000⟩,
   ⟨0.951056, 0.162460, 0.262866⟩]

def md2NormalsChunk2 : List Vec3 :=
  [⟨0.850651, -0.525731, 0.000000⟩, ⟨0.955423, -0.295242, 0.000000⟩,
   ⟨0.864188, -0.442863, 0.238856⟩, ⟨0.951056, -0.162460, 0.262866⟩,
   ⟨0.809017, -0.309017, 0.500000⟩, ⟨0.681718, -0.147621, 0.716567⟩,
   ⟨0.850651, 0.000000, 0.525731⟩, ⟨0.864188, 0.442863, -0.238856⟩,
   ⟨0.809017, 0.309017, -0.500000⟩, ⟨0.951056, 0.162460, -0.262866⟩,
   ⟨0.525731, 0.000000, -0.850651⟩, ⟨0.681718, 0.147621, -0.716567⟩,
   ⟨0.681718, -0.147621, -0.716567⟩, ⟨0.850651, 0.000000, -0.525731⟩,
   ⟨0.809017, -0.309017, -0.500000⟩, ⟨0.864188, -0.442863, -0.238856⟩,
   ⟨0.951056, -0.162460, -0.262866⟩, ⟨0.147621, 0.716567, -0.681718⟩,
   ⟨0.309017, 0.500000, -0.809017⟩, ⟨0.425325, 0.688191, -0.587785⟩,
   ⟨0.442863, 0.238856, -0.864188⟩, ⟨0.587785, 0.425325, -0.688191⟩,
   ⟨0.688191, 0.587785, -0.425325⟩, ⟨-0.147621, 0.716567, -0.681718⟩,
   ⟨-0.309017, 0.500000, -0.809017⟩, ⟨0.000000, 0.525731, -0.850651⟩,
   ⟨-0.525731, 0.000000, -0.850651⟩]

def md2NormalsChunk3 : List Vec3 :=
  [⟨-0.442863, 0.238856, -0.864188⟩, ⟨-0.295242, 0.000000, -0.955423⟩,
   ⟨-0.162460, 0.262866, -0.951056⟩, ⟨0.000000, 0.000000, -1.000000⟩,
   ⟨0.295242, 0.000000, -0.955423⟩, ⟨0.162460, 0.262866, -0.951056⟩,
   ⟨-0.442863, -0.238856, -0.864188⟩, ⟨-0.309017, -0.500000, -0.809017⟩,
   ⟨-0.162460, -0.262866, -0.951056⟩, ⟨0.000000, -0.850651, -0.525731⟩,
   ⟨-0.147621, -0.716567, -0.681718⟩, ⟨0.147621, -0.716567, -0.681718⟩,
   ⟨0.000000, -0.525731, -0.850651⟩, ⟨0.309017, -0.500000, -0.809017⟩,
   ⟨0.442863, -0.238856, -0.864188⟩, ⟨0.162460, -0.262866, -0.951056⟩,
   ⟨0.238856, -0.864188, -0.442863⟩, ⟨0.500000, -0.809017, -0.309017⟩,
   ⟨0.425325, -0.688191, -0.587785⟩, ⟨0.716567, -0.681718, -0.147621⟩,
   ⟨0.688191, -0.587785, -0.425325⟩, ⟨0.587785, -0.425325, -0.688191⟩,
   ⟨0.000000, -0.955423, -0.295242⟩, ⟨0.000000, -1.000000, 0.000000⟩,
   ⟨0.262866, -0.951056, -0.162460⟩, ⟨0.000000, -0.850651, 0.525731⟩,
   ⟨0.000000, -0.955423, 0.295242⟩]

def md2NormalsChunk4 : List Vec3 :=
  [⟨0.238856, -0.864188, 0.442863⟩, ⟨0.262866, -0.951056, 0.162460⟩,
   ⟨0.500000, -0.809017, 0.309017⟩, ⟨0.716567, -0.681718, 0.147621⟩,
   ⟨0.525731, -0.850651, 0.000000⟩, ⟨-0.238856, -0.864188, -0.442863⟩,
   ⟨-0.500000, -0.809017, -0.309017⟩, ⟨-0.262866, -0.951056, -0.162460⟩,
   ⟨-0.850651, -0.525731, 0.000000⟩, ⟨-0.716567, -0.681718, -0.147621⟩,
   ⟨-0.716567, -0.681718, 0.147621⟩, ⟨-0.525731, -0.850651, 0.000000⟩,
   ⟨-0.500000, -0.809017, 0.309017⟩, ⟨-0.238856, -0.864188, 0.442863⟩,
   ⟨-0.262866, -0.951056, 0.162460⟩, ⟨-0.864188, -0.442863, 0.238856⟩,
   ⟨-0.809017, -0.309017, 0.500000⟩, ⟨-0.688191, -0.587785, 0.425325⟩,
   ⟨-0.681718, -0.147621, 0.716567⟩, ⟨-0.442863, -0.238856, 0.864188⟩,
   ⟨-0.587785, -0.425325, 0.688191⟩, ⟨-0.309017, -0.500000, 0.809017⟩,
   ⟨-0.147621, -0.716567, 0.681718⟩, ⟨-0.425325, -0.688191, 0.587785⟩,
   ⟨-0.162460, -0.262866, 0.951056⟩, ⟨0.442863, -0.238856, 0.864188⟩,
   ⟨0.162460, -0.262866, 0.951056⟩]

def md2NormalsChunk5 : List Vec3 :=
  [⟨0.309017, -0.500000, 0.809017⟩, ⟨0.147621, -0.716567, 0.681718⟩,
   ⟨0.000000, -0.525731, 0.850651⟩, ⟨0.425325, -0.688191, 0.587785⟩,
   ⟨0.587785, -0.425325, 0.688191⟩, ⟨0.688191, -0.587785, 0.425325⟩,
   ⟨-0.955423, 0.295242, 0.000000⟩, ⟨-0.951056, 0.162460, 0.262866⟩,
   ⟨-1.000000, 0.000000, 0.000000⟩, ⟨-0.850651, 0.000000, 0.525731⟩,
   ⟨-0.955423, -0.295242, 0.000000⟩, ⟨-0.951056, -0.162460, 0.262866⟩,
   ⟨-0.864188, 0.442863, -0.238856⟩, ⟨-0.951056, 0.162460, -0.262866⟩,
   ⟨-0.809017, 0.309017, -0.500000⟩, ⟨-0.864188, -0.442863, -0.238856⟩,
   ⟨-0.951056, -0.162460, -0.262866⟩, ⟨-0.809017, -0.309017, -0.500000⟩,
   ⟨-0.681718, 0.147621, -0.716567⟩, ⟨-0.681718, -0.147621, -0.716567⟩,
   ⟨-0.850651, 0.000000, -0.525731⟩, ⟨-0.688191, 0.587785, -0.425325⟩,
   ⟨-0.587785, 0.425325, -0.688191⟩, ⟨-0.425325, 0.688191, -0.587785⟩,
   ⟨-0.425325, -0.688191, -0.587785⟩, ⟨-0.587785, -0.425325, -0.688191⟩,
   ⟨-0.688191, -0.587785, -0.425325⟩]

/-- The 162-entry MD2 normal table (`g_normals` of loader_md2.cpp;
`g_md2_normals` of mesh.cpp is the identical table), split into chunks of
27 rows to keep elaboration cheap. -/
def g_md2_normals : List Vec3 :=
  md2NormalsChunk0 ++ md2NormalsChunk1 ++ md2NormalsChunk2 ++
  md2NormalsChunk3 ++ md2NormalsChunk4 ++ md2NormalsChunk5

/-- loader_md2.cpp `Mesh_GetMD2Vertex`: evaluate one compressed MD2 vertex,
blending frames `frame_a` and `frame_b` by `t`.  Out-of-range frame indices
are clamped to `frame_count - 1`; an out-of-range vertex index is reset to
`0`; the normal index is reduced `% 162` before the table lookup.  Returns
(position, normal, uv); the `uv` out-parameter is always set to `(0,0)`. -/
noncomputable def Mesh_GetMD2Vertex (st : MeshState)
    (mesh_id vert_idx frame_a frame_b : Nat) (t : ℝ) :
    Vec3 × Vec3 × Vec2 :=
  match Mesh_Get st mesh_id with
  | some (MeshSlot.animated anim) =>
    let fa := if anim.frame_count ≤ frame_a then anim.frame_count - 1 else frame_a
    let fb := if anim.frame_count ≤ frame_b then anim.frame_count - 1 else frame_b
    let vi := if anim.verts_per_frame ≤ vert_idx then 0 else vert_idx
    let fda := st.frame_pool.getD (anim.frame_start + fa) defaultFrameDesc
    let fdb := st.frame_pool.getD (anim.frame_start + fb) defaultFrameDesc
    let va := st.md2_vertex_pool.getD (fda.vertex_start + vi) defaultMD2Vertex
    let vb := st.md2_vertex_pool.getD (fdb.vertex_start + vi) defaultMD2Vertex
    let pa : Vec3 := ⟨fda.scale.x * (va.x : ℝ) + fda.translate.x,
                     fda.scale.y * (va.y : ℝ) + fda.translate.y,
                     fda.scale.z * (va.z : ℝ) + fda.translate.z⟩
    let pb : Vec3 := ⟨fdb.scale.x * (vb.x : ℝ) + fdb.translate.x,
                     fdb.scale.y * (vb.y : ℝ) + fdb.translate.y,
                     fdb.scale.z * (vb.z : ℝ) + fdb.translate.z⟩
    let na := g_md2_normals.getD (va.normal_index % 162) Vec3_Zero
    let nb := g_md2_normals.getD (vb.normal_index % 162) Vec3_Zero
    (Vec3_Lerp pa pb t, Vec3_Normalize (Vec3_Lerp na nb t), ⟨0, 0⟩)
  | _ => (Vec3_Zero, ⟨0, 1, 0⟩, ⟨0, 0⟩)

/-- mesh.cpp `Mesh_GetMD2InterpolatedVertex`: same evaluation, but an
out-of-range `vertex_index` is rejected with a zero position and `+Y`
normal instead of being reset (frames are still clamped). -/
noncomputable def Mesh_GetMD2InterpolatedVertex (st : MeshState)
    (mesh_id vertex_index frame_a frame_b : Nat) (lerp : ℝ) :
    Vec3 × Vec3 :=
  if MAX_MESHES ≤ mesh_id then (Vec3_Zero, ⟨0, 1, 0⟩)
  else
    match st.meshes.getD mesh_id MeshSlot.free with
    | MeshSlot.animated anim =>
      let fa := if anim.frame_count ≤ frame_a then anim.frame_count - 1 else frame_a
      let fb := if anim.frame_count ≤ frame_b then anim.frame_count - 1 else frame_b
      if anim.verts_per_frame ≤ vertex_index then (Vec3_Zero, ⟨0, 1, 0⟩)
      else
        let fda := st.frame_pool.getD (anim.frame_start + fa) defaultFrameDesc
        let fdb := st.frame_pool.getD (anim.frame_start + fb) defaultFrameDesc
        let va := st.md2_vertex_pool.getD (fda.vertex_start + vertex_index) defaultMD2Vertex
        let vb := st.md2_vertex_pool.getD (fdb.vertex_start + vertex_index) defaultMD2Vertex
        let pa : Vec3 := ⟨(va.x : ℝ) * fda.scale.x + fda.translate.x,
                         (va.y : ℝ) * fda.scale.y + fda.translate.y,
                         (va.z : ℝ) * fda.scale.z + fda.translate.z⟩
        let pb : Vec3 := ⟨(vb.x : ℝ) * fdb.scale.x + fdb.translate.x,
                         (vb.y : ℝ) * fdb.scale.y + fdb.translate.y,
                         (vb.z : ℝ) * fdb.scale.z + fdb.translate.z⟩
        let na := g_md2_normals.getD (va.normal_index % 162) Vec3_Zero
        let nb := g_md2_normals.getD (vb.normal_index % 162) Vec3_Zero
        (Vec3_Lerp pa pb lerp, Vec3_Normalize (Vec3_Lerp na nb lerp))
    | _ => (Vec3_Zero, ⟨0, 1, 0⟩)

/-! ### Claims about the MD2 evaluators -/

theorem Vec3_Lerp_self (v : Vec3) (t : ℝ) : Vec3_Lerp v v t = v := by
  cases v with
  | mk x y z => simp [Vec3_Lerp]

theorem Mesh_Get_animated (st : MeshState) (id : Nat)
    (anim : AnimatedMeshDesc) (hid : id < MAX_MESHES)
    (hslot : st.meshes.getD id MeshSlot.free = MeshSlot.animated anim) :
    Mesh_Get st id = some (MeshSlot.animated anim) := by
  unfold Mesh_Get
  rw [if_neg (by omega), hslot]

/-- Clamping to `frame_count - 1` is idempotent: feeding the already
clamped index `min f (fc - 1)` through the clamp gives the same result as
clamping `f`. -/
theorem md2clamp_eq (fc f : Nat) :
    (if fc ≤ min f (fc - 1) then fc - 1 else min f (fc - 1)) =
    (if fc ≤ f then fc - 1 else f) := by
  split_ifs <;> omega

/-- How the two MD2 evaluators treat out-of-range indices: frames are
clamped to the last valid frame (`min · (frame_count - 1)`); an
out-of-range vertex index is reset to `0` by `Mesh_GetMD2Vertex` and
rejected with a zero position and `+Y` normal by
`Mesh_GetMD2InterpolatedVertex`. -/
def MD2OutOfRangeClaim (st : MeshState) (anim : AnimatedMeshDesc)
    (mesh_id vert_idx frame_a frame_b : Nat) (t : ℝ) : Prop :=
  (Mesh_GetMD2Vertex st mesh_id vert_idx frame_a frame_b t =
    Mesh_GetMD2Vertex st mesh_id vert_idx
      (min frame_a (anim.frame_count - 1))
      (min frame_b (anim.frame_count - 1)) t)
  ∧ (anim.verts_per_frame ≤ vert_idx →
      Mesh_GetMD2Vertex st mesh_id vert_idx frame_a frame_b t =
        Mesh_GetMD2Vertex st mesh_id 0 frame_a frame_b t)
  ∧ (Mesh_GetMD2InterpolatedVertex st mesh_id vert_idx frame_a frame_b t =
      Mesh_GetMD2InterpolatedVertex st mesh_id vert_idx
        (min frame_a (anim.frame_count - 1))
        (min frame_b (anim.frame_count - 1)) t)
  ∧ (anim.verts_per_frame ≤ vert_idx →
      Mesh_GetMD2InterpolatedVertex st mesh_id vert_idx frame_a frame_b t =
        (Vec3_Zero, ⟨0, 1, 0⟩))

/-- C3 (amended): for every animated mesh, both MD2 vertex evaluators clamp
an out-of-range frame index to the last valid frame (`frame_count - 1`),
but an out-of-range vertex index is NOT clamped to the last valid index:
`Mesh_GetMD2Vertex` resets it to `0` and evaluates vertex 0, while
`Mesh_GetMD2InterpolatedVertex` rejects the request with a zero position
and `+Y` normal. -/
theorem md2_out_of_range_handling (st : MeshState)
    (anim : AnimatedMeshDesc) (mesh_id vert_idx frame_a frame_b : Nat)
    (t : ℝ) (hid : mesh_id < MAX_MESHES)
    (hslot : st.meshes.getD mesh_id MeshSlot.free = MeshSlot.animated anim) :
    MD2OutOfRangeClaim st anim mesh_id vert_idx frame_a frame_b t := by
  have hMG := Mesh_Get_animated st mesh_id anim hid hslot
  refine ⟨?_, fun hv => ?_, ?_, fun hv => ?_⟩
  · unfold Mesh_GetMD2Vertex
    rw [hMG]
    simp only [md2clamp_eq]
  · unfold Mesh_GetMD2Vertex
    rw [hMG]
    simp only [if_pos hv, Nat.le_zero, ite_self]
  · unfold Mesh_GetMD2InterpolatedVertex
    simp only [if_neg (show ¬ MAX_MESHES ≤ mesh_id by omega), hslot,
      md2clamp_eq]
  · unfold Mesh_GetMD2InterpolatedVertex
    rw [if_neg (by omega), hslot]
    simp only [if_pos hv]

/-- Concrete pool state: one animated mesh with a single frame of two
compressed vertices whose decompressed `x` coordinates are `10` and `20`
(scale `(1,1,1)`, translate `(0,0,0)`). -/
def stC3 : MeshState :=
  ⟨[MeshSlot.animated ⟨0, 1, 0, 0, 2, 0, 0⟩],
   [⟨⟨1, 1, 1⟩, ⟨0, 0, 0⟩, 0, 2⟩],
   [⟨10, 0, 0, 0⟩, ⟨20, 0, 0, 0⟩]⟩

/-- C3 counterexample to the claim as stated: on `stC3`
(`verts_per_frame = 2`), requesting vertex index `5` does NOT evaluate the
last valid vertex (index `1`): `Mesh_GetMD2Vertex` returns vertex 0's
position (x = 10, not 20) and `Mesh_GetMD2InterpolatedVertex` returns the
zero position. -/
theorem md2_vertex_clamp_counterexample :
    (Mesh_GetMD2Vertex stC3 0 5 0 0 0).1 ≠
      (Mesh_GetMD2Vertex stC3 0 1 0 0 0).1 ∧
    (Mesh_GetMD2InterpolatedVertex stC3 0 5 0 0 0).1 ≠
      (Mesh_GetMD2InterpolatedVertex stC3 0 1 0 0 0).1 := by
  constructor
  · intro h
    have hx := congrArg Vec3.x h
    norm_num [Mesh_GetMD2Vertex, Mesh_Get, stC3, MAX_MESHES, Vec3_Lerp,
      Vec3_Zero, defaultFrameDesc, defaultMD2Vertex] at hx
  · intro h
    have hx := congrArg Vec3.x h
    norm_num [Mesh_GetMD2InterpolatedVertex, stC3, MAX_MESHES, Vec3_Lerp,
      Vec3_Zero, defaultFrameDesc, defaultMD2Vertex] at hx

/-- Witness for `md2_out_of_range_handling` on `stC3` with vertex index 5
and frame indices 7 and 0. -/
theorem md2_out_of_range_handling_witness :
    ((0:Nat) < MAX_MESHES ∧
      stC3.meshes.getD 0 MeshSlot.free =
        MeshSlot.animated ⟨0, 1, 0, 0, 2, 0, 0⟩) ∧
    MD2OutOfRangeClaim stC3 ⟨0, 1, 0, 0, 2, 0, 0⟩ 0 5 7 0 0 :=
  ⟨⟨by norm_num [MAX_MESHES], rfl⟩,
   md2_out_of_range_handling stC3 ⟨0, 1, 0, 0, 2, 0, 0⟩ 0 5 7 0 0
     (by norm_num [MAX_MESHES]) rfl⟩

/-- Evaluating an animated mesh with `frame_a = frame_b = f` yields exactly
the decompressed vertex of frame `f`: position `byte · scale + translate`
componentwise, normal the re-normalized 162-entry-table normal of the
vertex, independent of the interpolation factor. -/
def MD2EvalIdentityClaim (st : MeshState) (anim : AnimatedMeshDesc)
    (mesh_id vi f : Nat) (t : ℝ) : Prop :=
  let fd := st.frame_pool.getD (anim.frame_start + f) defaultFrameDesc
  let v := st.md2_vertex_pool.getD (fd.vertex_start + vi) defaultMD2Vertex
  Mesh_GetMD2Vertex st mesh_id vi f f t =
    (⟨fd.scale.x * (v.x : ℝ) + fd.translate.x,
      fd.scale.y * (v.y : ℝ) + fd.translate.y,
      fd.scale.z * (v.z : ℝ) + fd.translate.z⟩,
     Vec3_Normalize (g_md2_normals.getD (v.normal_index % 162) Vec3_Zero),
     (⟨0, 0⟩ : Vec2))

/-- C8: for every animated mesh, in-range vertex index, valid frame `f` and
interpolation factor `t ∈ [0,1]`, evaluating with `frame_a = frame_b = f`
returns exactly the decompressed vertex of frame `f` (position
`byte · frame.scale + frame.translate` componentwise, normal the
re-normalized table normal), independent of `t`. -/
theorem md2_evaluate_identity (st : MeshState) (anim : AnimatedMeshDesc)
    (mesh_id vi f : Nat) (t : ℝ)
    (hid : mesh_id < MAX_MESHES)
    (hslot : st.meshes.getD mesh_id MeshSlot.free = MeshSlot.animated anim)
    (hv : vi < anim.verts_per_frame)
    (hf : f < anim.frame_count)
    (ht0 : 0 ≤ t) (ht1 : t ≤ 1) :
    MD2EvalIdentityClaim st anim mesh_id vi f t := by
  have hMG := Mesh_Get_animated st mesh_id anim hid hslot
  unfold MD2EvalIdentityClaim Mesh_GetMD2Vertex
  rw [hMG]
  simp only [if_neg (not_le.mpr hf), if_neg (not_le.mpr hv), Vec3_Lerp_self]

/-- Witness for `md2_evaluate_identity` on `stC3` at vertex 0, frame 0,
`t = 1/2`. -/
theorem md2_evaluate_identity_witness :
    ((0:Nat) < MAX_MESHES ∧
      stC3.meshes.getD 0 MeshSlot.free =
        MeshSlot.animated ⟨0, 1, 0, 0, 2, 0, 0⟩ ∧
      (0:Nat) < 2 ∧ (0:Nat) < 1 ∧ (0:ℝ) ≤ 1/2 ∧ (1/2:ℝ) ≤ 1) ∧
    MD2EvalIdentityClaim stC3 ⟨0, 1, 0, 0, 2, 0, 0⟩ 0 0 0 (1/2) :=
  ⟨⟨by norm_num [MAX_MESHES], rfl, by norm_num, by norm_num, by norm_num,
     by norm_num⟩,
   md2_evaluate_identity stC3 ⟨0, 1, 0, 0, 2, 0, 0⟩ 0 0 0 (1/2)
     (by norm_num [MAX_MESHES]) rfl (by norm_num) (by norm_num)
     (by norm_num) (by norm_num)⟩

/-- C10: for every byte value of a compressed vertex's `normal_index`, the
index actually used by `Mesh_GetMD2Vertex` and
`Mesh_GetMD2InterpolatedVertex` — `normal_index % 162` — lies inside the
162-entry table `g_md2_normals`, so the lookup never reads past the table
and never falls back to the out-of-range default. -/
theorem md2_normal_index_in_table (b : Nat) :
    b % 162 < g_md2_normals.length ∧
    g_md2_normals[b % 162]? =
      some (g_md2_normals.getD (b % 162) Vec3_Zero) := by
  have hlen : g_md2_normals.length = 162 := rfl
  have hlt : b % 162 < g_md2_normals.length := by
    rw [hlen]
    exact Nat.mod_lt _ (by norm_num)
  refine ⟨hlt, ?_⟩
  rw [List.getD_eq_getElem?_getD, List.getElem?_eq_getElem hlt]
  rfl

/-! ## MD2 loader (loader_md2.cpp `Mesh_LoadMD2`)

The input buffer is `Option (List Nat)` — `none` for a `NULL` pointer,
otherwise the raw bytes (each `< 256`); the `size` argument of the C
function is the length of that list.  Integer header fields are read
little-endian; `float` fields (frame `scale`/`translate`) are decoded from
their 32-bit pattern by an abstract decoder `f32 : Nat → ℝ` passed as a
parameter (IEEE-754 bit decoding is not modelled; every theorem below
holds for an arbitrary decoder). -/

def readU8 (bytes : List Nat) (off : Nat) : Nat := bytes.getD off 0

def readU16LE (bytes : List Nat) (off : Nat) : Nat :=
  readU8 bytes off + 256 * readU8 bytes (off + 1)

def readU32LE (bytes : List Nat) (off : Nat) : Nat :=
  readU8 bytes off + 256 * readU8 bytes (off + 1) +
  65536 * readU8 bytes (off + 2) + 16777216 * readU8 bytes (off + 3)

/-- A little-endian `int32_t` read (two's complement). -/
def readI32LE (bytes : List Nat) (off : Nat) : Int :=
  let u := readU32LE bytes off
  if u < 2147483648 then (u : Int) else (u : Int) - 4294967296

/-- A little-endian `int16_t` read (two's complement). -/
def readI16LE (bytes : List Nat) (off : Nat) : Int :=
  let u := readU16LE bytes off
  if u < 32768 then (u : Int) else (u : Int) - 65536

/-- Conversion of an `int` expression to `uint32_t` (C's modular
conversion). -/
def toU32 (i : Int) : Nat := (i % 4294967296).toNat

/-- loader_md2.cpp `MD2Header_t`: seventeen `int32_t` fields, 68 bytes. -/
structure MD2Header where
  (magic version skin_width skin_height frame_size : Int)
  (num_skins num_vertices num_texcoords num_triangles : Int)
  (num_glcmds num_frames : Int)
  (offset_skins offset_texcoords offset_triangles : Int)
  (offset_frames offset_glcmds offset_end : Int)

def MD2HeaderSize : Nat := 68

def parseMD2Header (bytes : List Nat) : MD2Header :=
  ⟨readI32LE bytes 0, readI32LE bytes 4, readI32LE bytes 8,
   readI32LE bytes 12, readI32LE bytes 16, readI32LE bytes 20,
   readI32LE bytes 24, readI32LE bytes 28, readI32LE bytes 32,
   readI32LE bytes 36, readI32LE bytes 40, readI32LE bytes 44,
   readI32LE bytes 48, readI32LE bytes 52, readI32LE bytes 56,
   readI32LE bytes 60, readI32LE bytes 64⟩

/-- mesh.h `MD2UV_t`. -/
structure MD2UV where
  (u v : ℝ)

/-- The global pools the MD2 loader reads and writes.  Pool contents are
total maps from cell index to value (the C arrays); the `used` counters
match mesh.cpp's globals. -/
structure LoaderState where
  (meshes : List MeshSlot)
  (index_used frame_used md2_vertex_used md2_uv_used : Nat)
  (index_pool : Nat → Nat)
  (md2_uv_pool : Nat → MD2UV)
  (frame_pool : Nat → MD2FrameDesc)
  (md2_vertex_pool : Nat → MD2Vertex)

/-- mesh.cpp `AllocMeshSlot`: index of the first free slot among the
`MAX_MESHES` slots, `0xFFFFFFFF` when none is free. -/
def AllocMeshSlot (meshes : List MeshSlot) : Nat :=
  match (meshes.take MAX_MESHES).findIdx?
      (fun s => match s with | MeshSlot.free => true | _ => false) with
  | some i => i
  | none => NO_SPACE

/-- The part of loader_md2.cpp `Mesh_LoadMD2` after the header checks
(slot and pool allocation, per-triangle index/UV expansion with flipped
winding, per-frame `scale`/`translate`/compressed-vertex copy, slot
registration).  The in-place array writes of the two copy loops are
rendered as pointwise function updates over the written ranges. -/
noncomputable def md2LoadBody (f32 : Nat → ℝ) (st : LoaderState)
    (bytes : List Nat) (hdr : MD2Header) : Nat × LoaderState :=
  let slot := AllocMeshSlot st.meshes
  if slot = NO_SPACE then (NO_SPACE, st)
  else
    let num_uvs := toU32 (hdr.num_triangles * 3)
    let uvA := AllocMD2UVs st.md2_uv_used num_uvs
    let st1 := { st with md2_uv_used := uvA.2 }
    if uvA.1 = NO_SPACE then (NO_SPACE, st1)
    else
      let idxA := AllocIndices st1.index_used (toU32 (hdr.num_triangles * 3))
      let st2 := { st1 with index_used := idxA.2 }
      if idxA.1 = NO_SPACE then (NO_SPACE, st2)
      else
        let inv_w : ℝ := 1 / (hdr.skin_width : ℝ)
        let inv_h : ℝ := 1 / (hdr.skin_height : ℝ)
        let nTri := hdr.num_triangles.toNat
        let offT := hdr.offset_triangles.toNat
        let offUV := hdr.offset_texcoords.toNat
        let tri := fun (i j : Nat) => readU16LE bytes (offT + 12 * i + 2 * j)
        let triUV := fun (i j : Nat) => readU16LE bytes (offT + 12 * i + 6 + 2 * j)
        let index_pool2 : Nat → Nat := fun k =>
          if idxA.1 ≤ k ∧ k < idxA.1 + nTri * 3 then
            let r := k - idxA.1
            let i := r / 3
            let j := r % 3
            if j = 0 then tri i 0 else if j = 1 then tri i 2 else tri i 1
          else st2.index_pool k
        let uv_pool2 : Nat → MD2UV := fun k =>
          if uvA.1 ≤ k ∧ k < uvA.1 + nTri * 3 then
            let r := k - uvA.1
            let uvi := triUV (r / 3) (r % 3)
            ⟨(readI16LE bytes (offUV + 4 * uvi) : ℝ) * inv_w,
             (readI16LE bytes (offUV + 4 * uvi + 2) : ℝ) * inv_h⟩
          else st2.md2_uv_pool k
        let st3 := { st2 with
          index_pool := index_pool2
          md2_uv_pool := uv_pool2 }
        let frA := AllocFrames st3.frame_used (toU32 hdr.num_frames)
        let st4 := { st3 with frame_used := frA.2 }
        if frA.1 = NO_SPACE then (NO_SPACE, st4)
        else
          let total_verts := toU32 (hdr.num_frames * hdr.num_vertices)
          let mvA := AllocMD2Vertices st4.md2_vertex_used total_verts
          let st5 := { st4 with md2_vertex_used := mvA.2 }
          if mvA.1 = NO_SPACE then (NO_SPACE, st5)
          else
            let nFrames := hdr.num_frames.toNat
            let nVerts := hdr.num_vertices.toNat
            let frameOff := fun (f : Nat) =>
              hdr.offset_frames.toNat + f * hdr.frame_size.toNat
            let frame_pool2 : Nat → MD2FrameDesc := fun k =>
              if frA.1 ≤ k ∧ k < frA.1 + nFrames then
                let base := frameOff (k - frA.1)
                ⟨⟨f32 (readU32LE bytes base),
                  f32 (readU32LE bytes (base + 4)),
                  f32 (readU32LE bytes (base + 8))⟩,
                 ⟨f32 (readU32LE bytes (base + 12)),
                  f32 (readU32LE bytes (base + 16)),
                  f32 (readU32LE bytes (base + 20))⟩,
                 (mvA.1 + (k - frA.1) * nVerts) % 65536,
                 nVerts % 65536⟩
              else st5.frame_pool k
            let md2_vertex_pool2 : Nat → MD2Vertex := fun k =>
              if mvA.1 ≤ k ∧ k < mvA.1 + nFrames * nVerts then
                let r := k - mvA.1
                let base := frameOff (r / nVerts) + 40 + 4 * (r % nVerts)
                ⟨readU8 bytes base, readU8 bytes (base + 1),
                 readU8 bytes (base + 2), readU8 bytes (base + 3)⟩
              else st5.md2_vertex_pool k
            let slotDesc : AnimatedMeshDesc :=
              ⟨frA.1 % 65536, nFrames % 65536, idxA.1 % 65536,
               toU32 (hdr.num_triangles * 3) % 65536,
               nVerts % 65536, uvA.1 % 65536, num_uvs % 65536⟩
            (slot, { st5 with
              meshes := st5.meshes.set slot (MeshSlot.animated slotDesc)
              frame_pool := frame_pool2
              md2_vertex_pool := md2_vertex_pool2 })

/-- loader_md2.cpp `Mesh_LoadMD2`: `NULL`/short-buffer/magic/version/
frame-count validation, then `md2LoadBody`. -/
noncomputable def Mesh_LoadMD2 (f32 : Nat → ℝ) (st : LoaderState)
    (data : Option (List Nat)) : Nat × LoaderState :=
  match data with
  | none => (NO_SPACE, st)
  | some bytes =>
    if bytes.length < MD2HeaderSize then (NO_SPACE, st)
    else if (parseMD2Header bytes).magic ≠ 844121161 ∨
        (parseMD2Header bytes).version ≠ 8 then (NO_SPACE, st)
    else if (MAX_MD2_FRAMES : Int) < (parseMD2Header bytes).num_frames then
      (NO_SPACE, st)
    else md2LoadBody f32 st bytes (parseMD2Header bytes)

/-- Empty pool state used as a concrete loader input. -/
def stLoadW : LoaderState :=
  ⟨List.replicate MAX_MESHES MeshSlot.free, 0, 0, 0, 0,
   fun _ => 0, fun _ => ⟨0, 0⟩, fun _ => defaultFrameDesc,
   fun _ => defaultMD2Vertex⟩

/-- C7: `Mesh_LoadMD2` returns the sentinel `0xFFFFFFFF` whenever the
buffer is null, smaller than the 68-byte header, has a magic different
from 844121161 ("IDP2" little-endian), a version different from 8, or a
frame count exceeding `MAX_MD2_FRAMES`; so only inputs passing all these
checks can produce a valid mesh handle.  Holds for every float decoder and
every pool state. -/
theorem md2_load_rejects (f32 : Nat → ℝ) (st : LoaderState)
    (bytes : List Nat)
    (h : bytes.length < MD2HeaderSize ∨
         (parseMD2Header bytes).magic ≠ 844121161 ∨
         (parseMD2Header bytes).version ≠ 8 ∨
         (MAX_MD2_FRAMES : Int) < (parseMD2Header bytes).num_frames) :
    (Mesh_LoadMD2 f32 st (some bytes)).1 = NO_SPACE ∧
    (Mesh_LoadMD2 f32 st none).1 = NO_SPACE := by
  constructor
  · unfold Mesh_LoadMD2
    dsimp only
    split_ifs <;> first | rfl | (exfalso; tauto)
  · rfl

/-- Witness for `md2_load_rejects`: a three-byte buffer is shorter than
the header and is rejected. -/
theorem md2_load_rejects_witness :
    (([0, 1, 2] : List Nat).length < MD2HeaderSize ∨
      (parseMD2Header [0, 1, 2]).magic ≠ 844121161 ∨
      (parseMD2Header [0, 1, 2]).version ≠ 8 ∨
      (MAX_MD2_FRAMES : Int) < (parseMD2Header [0, 1, 2]).num_frames) ∧
    ((Mesh_LoadMD2 (fun _ => 0) stLoadW (some [0, 1, 2])).1 = NO_SPACE ∧
     (Mesh_LoadMD2 (fun _ => 0) stLoadW none).1 = NO_SPACE) :=
  ⟨Or.inl (by norm_num [MD2HeaderSize]),
   md2_load_rejects (fun _ => 0) stLoadW [0, 1, 2]
     (Or.inl (by norm_num [MD2HeaderSize]))⟩

/-! ## OBJ loader (mesh.cpp `Mesh_LoadOBJ`)

The text scanning of the three passes (line splitting, `strtod`/`strtol`
parsing) is not re-modelled; the loader is embedded from the parsed data
up: `ObjData` holds the pass-1 `v`/`vt`/`vn` records (`s_obj_pos`,
`s_obj_uv` with V already flipped, `s_obj_norm` already normalized), and
the `f` lines are given as lists of `ParseFaceIdx` results.  Pass 2 is the
face count; pass 3 is the fold below. -/

/-- mesh.h `Vertex_t`. -/
structure Vertex where
  (position normal : Vec3)
  (texcoord : Vec2)

/-- Pass-1 parse results of an OBJ buffer. -/
structure ObjData where
  (pos : List Vec3)
  (uv : List Vec2)
  (norm : List Vec3)

/-- One `position[/texcoord][/normal]` reference of an `f` line as parsed
by `ParseFaceIdx` (a component left at `0` is absent). -/
structure FaceRef where
  (v vt vn : Int)

/-- The body of pass 3's `for (int i = 0; i < fc; i++)` corner loop:
resolve 1-based / negative (relative-to-end) indices and build the output
vertex, defaulting to a zero position, `(0,0)` texcoord and `+Y` normal
for missing or out-of-range references. -/
def resolveVertex (d : ObjData) (r : FaceRef) : Vertex :=
  let vi : Int := if 0 < r.v then r.v - 1 else (d.pos.length : Int) + r.v
  let ti : Int :=
    if 0 < r.vt then r.vt - 1
    else if r.vt < 0 then (d.uv.length : Int) + r.vt else -1
  let ni : Int :=
    if 0 < r.vn then r.vn - 1
    else if r.vn < 0 then (d.norm.length : Int) + r.vn else -1
  ⟨if 0 ≤ vi ∧ vi < (d.pos.length : Int) then d.pos.getD vi.toNat Vec3_Zero
    else Vec3_Zero,
   if 0 ≤ ni ∧ ni < (d.norm.length : Int) then d.norm.getD ni.toNat ⟨0, 1, 0⟩
    else ⟨0, 1, 0⟩,
   if 0 ≤ ti ∧ ti < (d.uv.length : Int) then d.uv.getD ti.toNat ⟨0, 0⟩
    else ⟨0, 0⟩⟩

/-- Pass 3's handling of one `f` line: up to four corner references are
taken (`while (*lp && fc < 4)`); a face with at least three corners that
fits the conservative reservations appends one output vertex per corner,
the triangle `(base, base+1, base+2)` and, for a quad, the second triangle
`(base, base+2, base+3)` pivoting on the first corner.  Indices are stored
as `uint16_t`. -/
def emitFace (max_verts max_indices : Nat) (d : ObjData)
    (acc : List Vertex × List Nat) (face : List FaceRef) :
    List Vertex × List Nat :=
  let fc := min face.length 4
  if 3 ≤ fc ∧ acc.1.length + fc ≤ max_verts ∧
      acc.2.length + 6 ≤ max_indices then
    let base := acc.1.length
    let newVerts := (face.take 4).map (resolveVertex d)
    let tri1 := [base % 65536, (base + 1) % 65536, (base + 2) % 65536]
    let tri2 :=
      if fc = 4 then [base % 65536, (base + 2) % 65536, (base + 3) % 65536]
      else []
    (acc.1 ++ newVerts, acc.2 ++ tri1 ++ tri2)
  else acc

/-- mesh.cpp `Mesh_LoadOBJ` from the parsed data: conservative pool
reservation (4 vertices / 6 indices per face), pass-3 fold, trim of the
unused reservation, bounding box / sphere, `Static` slot registration.
Returns `none` on a failed pool reservation, otherwise the registered
`StaticMeshDesc` with the emitted vertex and index streams and the trimmed
`used` counters. -/
noncomputable def Mesh_LoadOBJ_faces (vertex_used index_used : Nat)
    (d : ObjData) (faces : List (List FaceRef)) :
    Option (StaticMeshDesc × List Vertex × List Nat × Nat × Nat) :=
  let face_count := faces.length
  let max_verts := face_count * 4
  let max_indices := face_count * 6
  let vA := AllocVertices vertex_used max_verts
  let iA := AllocIndices index_used max_indices
  if vA.1 = NO_SPACE ∨ iA.1 = NO_SPACE then none
  else
    let out := faces.foldl (emitFace max_verts max_indices d) ([], [])
    let v0 := (out.1.getD 0 ⟨Vec3_Zero, Vec3_Zero, ⟨0, 0⟩⟩).position
    let bmin := (out.1.drop 1).foldl (fun m v => Vec3_Min m v.position) v0
    let bmax := (out.1.drop 1).foldl (fun m v => Vec3_Max m v.position) v0
    let center := Vec3_Scale (Vec3_Add bmin bmax) 0.5
    let radius := Vec3_Length (Vec3_Sub bmax center)
    some (⟨vA.1, out.1.length, iA.1, out.2.length, center, radius⟩,
      out.1, out.2, vA.1 + out.1.length, iA.1 + out.2.length)

/-- The eight corner positions of a unit cube OBJ (`v` lines). -/
def cubeObjData : ObjData :=
  ⟨[⟨-1, -1, 1⟩, ⟨1, -1, 1⟩, ⟨1, 1, 1⟩, ⟨-1, 1, 1⟩,
    ⟨-1, -1, -1⟩, ⟨1, -1, -1⟩, ⟨1, 1, -1⟩, ⟨-1, 1, -1⟩], [], []⟩

def quadFace (a b c d : Int) : List FaceRef :=
  [⟨a, 0, 0⟩, ⟨b, 0, 0⟩, ⟨c, 0, 0⟩, ⟨d, 0, 0⟩]

/-- The six quad `f` lines of a cube OBJ (1-based indices). -/
def cubeFaces : List (List FaceRef) :=
  [quadFace 1 2 3 4, quadFace 6 5 8 7, quadFace 1 5 6 2,
   quadFace 2 6 7 3, quadFace 3 7 8 4, quadFace 5 1 4 8]

/-- C9: a face parsed as a quad (within the conservative reservations, and
below the `uint16_t` index range) emits exactly one output vertex per
corner — the four resolved corners in order, shared with no other face —
and exactly the two triangles `(base, base+1, base+2)` and
`(base, base+2, base+3)` pivoting on the first corner; consequently a cube
OBJ with 8 unique positions and 6 quad faces yields a `Static` mesh slot
with `vertex_count = 24` and `index_count = 36`. -/
theorem obj_quad_triangulation (max_verts max_indices : Nat) (d : ObjData)
    (acc : List Vertex × List Nat) (face : List FaceRef)
    (hfc : face.length = 4)
    (hv : acc.1.length + 4 ≤ max_verts)
    (hi : acc.2.length + 6 ≤ max_indices)
    (hb : acc.1.length + 3 < 65536) :
    emitFace max_verts max_indices d acc face =
      (acc.1 ++ face.map (resolveVertex d),
       acc.2 ++ [acc.1.length, acc.1.length + 1, acc.1.length + 2,
                 acc.1.length, acc.1.length + 2, acc.1.length + 3]) ∧
    (Mesh_LoadOBJ_faces 0 0 cubeObjData cubeFaces).map
        (fun r => (r.1.vertex_count, r.1.index_count)) = some (24, 36) := by
  constructor
  · have hface : face.take 4 = face := List.take_of_length_le (le_of_eq hfc)
    have m0 : acc.1.length % 65536 = acc.1.length := Nat.mod_eq_of_lt (by omega)
    have m1 : (acc.1.length + 1) % 65536 = acc.1.length + 1 :=
      Nat.mod_eq_of_lt (by omega)
    have m2 : (acc.1.length + 2) % 65536 = acc.1.length + 2 :=
      Nat.mod_eq_of_lt (by omega)
    have m3 : (acc.1.length + 3) % 65536 = acc.1.length + 3 :=
      Nat.mod_eq_of_lt (by omega)
    simp only [emitFace, hfc, hface, m0, m1, m2, m3]
    split_ifs with hcond h4
    · norm_num
    · exact absurd (by norm_num : (4:Nat) ⊓ 4 = 4) h4
    · exact absurd ⟨by norm_num, by simpa using hv, hi⟩ hcond
  · rfl

/-- Witness for `obj_quad_triangulation`: the first cube face appended to
empty output streams. -/
theorem obj_quad_triangulation_witness :
    ((quadFace 1 2 3 4).length = 4 ∧
      (([], []) : List Vertex × List Nat).1.length + 4 ≤ 24 ∧
      (([], []) : List Vertex × List Nat).2.length + 6 ≤ 36 ∧
      (([], []) : List Vertex × List Nat).1.length + 3 < 65536) ∧
    (emitFace 24 36 cubeObjData ([], []) (quadFace 1 2 3 4) =
      (([] : List Vertex) ++ (quadFace 1 2 3 4).map (resolveVertex cubeObjData),
       ([] : List Nat) ++ [0, 0 + 1, 0 + 2, 0, 0 + 2, 0 + 3]) ∧
     (Mesh_LoadOBJ_faces 0 0 cubeObjData cubeFaces).map
        (fun r => (r.1.vertex_count, r.1.index_count)) = some (24, 36)) :=
  ⟨⟨rfl, by norm_num, by norm_num, by norm_num⟩,
   obj_quad_triangulation 24 36 cubeObjData ([], []) (quadFace 1 2 3 4)
     rfl (by norm_num) (by norm_num) (by norm_num)⟩

/-! ## Vertex transform stage (main.cpp `TransformVertex`,
`RenderStaticMesh`) -/

def SCREEN_WIDTH : Nat := DISPLAY_WIDTH

def SCREEN_HEIGHT : Nat := DISPLAY_HEIGHT

/-- rasterizer.h `ScreenVertex_t`. -/
structure ScreenVertex where
  (x y : Int)
  (z w_inv u v : ℝ)
  (color : Nat)

/-- C's `(int)` / `(int32_t)` cast of a `float`: truncation toward zero. -/
noncomputable def truncToInt (r : ℝ) : Int := if 0 ≤ r then ⌊r⌋ else ⌈r⌉

/-- engine_config.h / texture.h `RGB565(r,g,b)`. -/
def RGB565 (r g b : Nat) : Nat :=
  ((r &&& 0xF8) <<< 8) ||| ((g &&& 0xFC) <<< 3) ||| (b >>> 3)

/-- The per-vertex directional light of `TransformVertex`: intensity from
the normal's Y component, truncated, clamped to `0..31`, packed grey. -/
noncomputable def vertexLightColor (ny : ℝ) : Nat :=
  let light := 0.3 + 0.7 * (ny * 0.5 + 0.5)
  let intensity0 := truncToInt (light * 31)
  let intensity1 := if 31 < intensity0 then 31 else intensity0
  let intensity := if intensity1 < 0 then 0 else intensity1
  RGB565 (intensity.toNat * 8) (intensity.toNat * 8) (intensity.toNat * 8)

/-- main.cpp `TransformVertex`: local → world → view → clip → NDC →
screen, rejecting (returning `none`, the C `return 0`) behind the near
plane, at tiny `clip.w`, and outside the loosened NDC box / depth range. -/
noncomputable def TransformVertex (view proj model : Mat4) (vin : Vertex) :
    Option ScreenVertex :=
  let world_pos := Mat4_MultiplyVec4 model
    ⟨vin.position.x, vin.position.y, vin.position.z, 1⟩
  let view_pos := Mat4_MultiplyVec4 view world_pos
  if -0.1 ≤ view_pos.z then none
  else
    let clip_pos := Mat4_MultiplyVec4 proj view_pos
    if clip_pos.w ≤ 0.0001 then none
    else
      let inv_w := 1 / clip_pos.w
      let ndc_x := clip_pos.x * inv_w
      let ndc_y := clip_pos.y * inv_w
      let ndc_z := clip_pos.z * inv_w
      if ndc_x < -1.5 ∨ 1.5 < ndc_x then none
      else if ndc_y < -1.5 ∨ 1.5 < ndc_y then none
      else if ndc_z < 0 ∨ 1 < ndc_z then none
      else
        let screen_x := (ndc_x * 0.5 + 0.5) * (SCREEN_WIDTH : ℝ)
        let screen_y := (1 - (ndc_y * 0.5 + 0.5)) * (SCREEN_HEIGHT : ℝ)
        some ⟨truncToInt screen_x, truncToInt screen_y, ndc_z, inv_w,
              vin.texcoord.x, vin.texcoord.y, vertexLightColor vin.normal.y⟩

def defVertex : Vertex := ⟨Vec3_Zero, Vec3_Zero, ⟨0, 0⟩⟩

/-- One iteration of `RenderStaticMesh`'s triangle loop: transform the
three corner vertices, drop the triangle if any is rejected, backface-cull
on the screen-space cross product, override the vertex colors with the
mesh color; the returned list holds the argument triples of the
`Rasterizer_DrawTriangleSolid` calls made (empty = no call). -/
noncomputable def processTriangle (view proj model : Mat4) (color : Nat)
    (verts : List Vertex) (i0 i1 i2 : Nat) :
    List (ScreenVertex × ScreenVertex × ScreenVertex) :=
  match TransformVertex view proj model (verts.getD i0 defVertex) with
  | none => []
  | some sv0 =>
    match TransformVertex view proj model (verts.getD i1 defVertex) with
    | none => []
    | some sv1 =>
      match TransformVertex view proj model (verts.getD i2 defVertex) with
      | none => []
      | some sv2 =>
        let ax := sv1.x - sv0.x
        let ay := sv1.y - sv0.y
        let bx := sv2.x - sv0.x
        let bq := sv2.y - sv0.y
        let cross := ax * bq - ay * bx
        if cross ≤ 0 then []
        else [({ sv0 with color := color }, { sv1 with color := color },
               { sv2 with color := color })]

/-- main.cpp `RenderStaticMesh`, triangle stage: walk the index stream
three by three and collect every rasterizer call. -/
noncomputable def RenderStaticMesh (view proj model : Mat4) (color : Nat)
    (verts : List Vertex) :
    List Nat → List (ScreenVertex × ScreenVertex × ScreenVertex)
  | i0 :: i1 :: i2 :: rest =>
      processTriangle view proj model color verts i0 i1 i2 ++
      RenderStaticMesh view proj model color verts rest
  | _ => []

/-- C5: `TransformVertex` rejects a vertex exactly when the view-space `z`
is `≥ -0.1`, or the clip-space `w` is `≤ 0.0001`, or a normalized-device
coordinate lies outside `[-1.5, 1.5]`, or the normalized-device depth lies
outside `[0, 1]`; a mesh triangle one of whose corners is rejected
produces no rasterizer call; in particular a vertex whose view-space `z`
is `0.05` is rejected and its triangle is not drawn. -/
theorem transformVertex_rejects (view proj model : Mat4) (vin : Vertex)
    (color : Nat) (verts : List Vertex) (i0 i1 i2 : Nat) :
    (let view_pos := Mat4_MultiplyVec4 view (Mat4_MultiplyVec4 model
        ⟨vin.position.x, vin.position.y, vin.position.z, 1⟩)
     let clip_pos := Mat4_MultiplyVec4 proj view_pos
     TransformVertex view proj model vin = none ↔
       (-0.1 ≤ view_pos.z ∨ clip_pos.w ≤ 0.0001 ∨
        clip_pos.x * (1 / clip_pos.w) < -1.5 ∨
        1.5 < clip_pos.x * (1 / clip_pos.w) ∨
        clip_pos.y * (1 / clip_pos.w) < -1.5 ∨
        1.5 < clip_pos.y * (1 / clip_pos.w) ∨
        clip_pos.z * (1 / clip_pos.w) < 0 ∨
        1 < clip_pos.z * (1 / clip_pos.w))) ∧
    ((TransformVertex view proj model (verts.getD i0 defVertex) = none ∨
      TransformVertex view proj model (verts.getD i1 defVertex) = none ∨
      TransformVertex view proj model (verts.getD i2 defVertex) = none) →
      processTriangle view proj model color verts i0 i1 i2 = []) ∧
    ((Mat4_MultiplyVec4 view (Mat4_MultiplyVec4 model
        ⟨vin.position.x, vin.position.y, vin.position.z, 1⟩)).z = 0.05 →
      TransformVertex view proj model vin = none) := by
  have hiff : (TransformVertex view proj model vin = none ↔
      (-0.1 ≤ (Mat4_MultiplyVec4 view (Mat4_MultiplyVec4 model
          ⟨vin.position.x, vin.position.y, vin.position.z, 1⟩)).z ∨
       (Mat4_MultiplyVec4 proj (Mat4_MultiplyVec4 view (Mat4_MultiplyVec4 model
          ⟨vin.position.x, vin.position.y, vin.position.z, 1⟩))).w ≤ 0.0001 ∨
       (Mat4_MultiplyVec4 proj (Mat4_MultiplyVec4 view (Mat4_MultiplyVec4 model
          ⟨vin.position.x, vin.position.y, vin.position.z, 1⟩))).x *
         (1 / (Mat4_MultiplyVec4 proj (Mat4_MultiplyVec4 view (Mat4_MultiplyVec4 model
          ⟨vin.position.x, vin.position.y, vin.position.z, 1⟩))).w) < -1.5 ∨
       1.5 < (Mat4_MultiplyVec4 proj (Mat4_MultiplyVec4 view (Mat4_MultiplyVec4 model
          ⟨vin.position.x, vin.position.y, vin.position.z, 1⟩))).x *
         (1 / (Mat4_MultiplyVec4 proj (Mat4_MultiplyVec4 view (Mat4_MultiplyVec4 model
          ⟨vin.position.x, vin.position.y, vin.position.z, 1⟩))).w) ∨
       (Mat4_MultiplyVec4 proj (Mat4_MultiplyVec4 view (Mat4_MultiplyVec4 model
          ⟨vin.position.x, vin.position.y, vin.position.z, 1⟩))).y *
         (1 / (Mat4_MultiplyVec4 proj (Mat4_MultiplyVec4 view (Mat4_MultiplyVec4 model
          ⟨vin.position.x, vin.position.y, vin.position.z, 1⟩))).w) < -1.5 ∨
       1.5 < (Mat4_MultiplyVec4 proj (Mat4_MultiplyVec4 view (Mat4_MultiplyVec4 model
          ⟨vin.position.x, vin.position.y, vin.position.z, 1⟩))).y *
         (1 / (Mat4_MultiplyVec4 proj (Mat4_MultiplyVec4 view (Mat4_MultiplyVec4 model
          ⟨vin.position.x, vin.position.y, vin.position.z, 1⟩))).w) ∨
       (Mat4_MultiplyVec4 proj (Mat4_MultiplyVec4 view (Mat4_MultiplyVec4 model
          ⟨vin.position.x, vin.position.y, vin.position.z, 1⟩))).z *
         (1 / (Mat4_MultiplyVec4 proj (Mat4_MultiplyVec4 view (Mat4_MultiplyVec4 model
          ⟨vin.position.x, vin.position.y, vin.position.z, 1⟩))).w) < 0 ∨
       1 < (Mat4_MultiplyVec4 proj (Mat4_MultiplyVec4 view (Mat4_MultiplyVec4 model
          ⟨vin.position.x, vin.position.y, vin.position.z, 1⟩))).z *
         (1 / (Mat4_MultiplyVec4 proj (Mat4_MultiplyVec4 view (Mat4_MultiplyVec4 model
          ⟨vin.position.x, vin.position.y, vin.position.z, 1⟩))).w))) := by
    simp only [TransformVertex]
    split_ifs with h1 h2 h3 h4 h5
    · exact iff_of_true rfl (Or.inl h1)
    · exact iff_of_true rfl (Or.inr (Or.inl h2))
    · exact iff_of_true rfl (by tauto)
    · exact iff_of_true rfl (by tauto)
    · exact iff_of_true rfl (by tauto)
    · refine iff_of_false (by simp) ?_
      push_neg at h3 h4 h5
      rintro (hc | hc | hc | hc | hc | hc | hc | hc) <;>
        first
          | exact h1 hc
          | exact h2 hc
          | linarith [h3.1, h3.2, h4.1, h4.2, h5.1, h5.2]
  refine ⟨hiff, fun h => ?_, fun hz => ?_⟩
  · rcases h with h | h | h
    · unfold processTriangle
      rw [h]
    · have h2 : TransformVertex view proj model (verts[i1]?.getD defVertex) =
          none := by
        rw [← List.getD_eq_getElem?_getD]
        exact h
      unfold processTriangle
      cases TransformVertex view proj model (verts.getD i0 defVertex) <;>
        simp [h, h2]
    · have h2 : TransformVertex view proj model (verts[i2]?.getD defVertex) =
          none := by
        rw [← List.getD_eq_getElem?_getD]
        exact h
      unfold processTriangle
      cases TransformVertex view proj model (verts.getD i0 defVertex) <;>
        cases TransformVertex view proj model (verts.getD i1 defVertex) <;>
        simp [h, h2]
  · exact hiff.mpr (Or.inl (by rw [hz]; norm_num))

/-- A vertex whose view-space position (under identity model and view
matrices) has `z = 0.05`. -/
def v005 : Vertex := ⟨⟨0, 0, 0.05⟩, Vec3_Zero, ⟨0, 0⟩⟩

/-- Witness for `transformVertex_rejects`: with identity model, view and
projection matrices, the vertex at `(0, 0, 0.05)` has view-space
`z = 0.05` and is rejected by `TransformVertex`. -/
theorem transformVertex_rejects_witness :
    (Mat4_MultiplyVec4 Mat4_Identity (Mat4_MultiplyVec4 Mat4_Identity
        ⟨v005.position.x, v005.position.y, v005.position.z, 1⟩)).z = 0.05 ∧
    TransformVertex Mat4_Identity Mat4_Identity Mat4_Identity v005 = none := by
  have hz : (Mat4_MultiplyVec4 Mat4_Identity (Mat4_MultiplyVec4 Mat4_Identity
      ⟨v005.position.x, v005.position.y, v005.position.z, 1⟩)).z = 0.05 := by
    have e0 : Mat4_Identity 0 = (1:ℝ) := rfl
    have e1 : Mat4_Identity 1 = (0:ℝ) := rfl
    have e2 : Mat4_Identity 2 = (0:ℝ) := rfl
    have e3 : Mat4_Identity 3 = (0:ℝ) := rfl
    have e4 : Mat4_Identity 4 = (0:ℝ) := rfl
    have e5 : Mat4_Identity 5 = (1:ℝ) := rfl
    have e6 : Mat4_Identity 6 = (0:ℝ) := rfl
    have e7 : Mat4_Identity 7 = (0:ℝ) := rfl
    have e8 : Mat4_Identity 8 = (0:ℝ) := rfl
    have e9 : Mat4_Identity 9 = (0:ℝ) := rfl
    have e10 : Mat4_Identity 10 = (1:ℝ) := rfl
    have e11 : Mat4_Identity 11 = (0:ℝ) := rfl
    have e12 : Mat4_Identity 12 = (0:ℝ) := rfl
    have e13 : Mat4_Identity 13 = (0:ℝ) := rfl
    have e14 : Mat4_Identity 14 = (0:ℝ) := rfl
    have e15 : Mat4_Identity 15 = (1:ℝ) := rfl
    simp only [Mat4_MultiplyVec4, e0, e1, e2, e3, e4, e5, e6, e7, e8, e9,
      e10, e11, e12, e13, e14, e15]
    norm_num [v005]
  exact ⟨hz,
    (transformVertex_rejects Mat4_Identity Mat4_Identity Mat4_Identity v005
      0 [] 0 0 0).2.2 hz⟩

/-! ## Rasterizer (rasterizer.cpp, embedded framebuffer branch)

The embedded (`#else`) build is modelled: `g_framebuffer` attachment is a
flag, the frame and depth buffers are total maps from pixel index to
16-bit value.  `int32_t` intermediates (edge functions, bounding boxes)
stay far below `2^31` for screen-ranged vertices and are modelled as `Int`.
The C pixel test `(w0 | w1 | w2) >= 0` (`int32_t` bitwise or) holds
exactly when all three edge values are non-negative — the sign bit of the
or is the or of the sign bits — and is written as that conjunction. -/

/-- rasterizer.h `RasterizerStats_t`. -/
structure RasterizerStats where
  (triangles_submitted triangles_culled triangles_drawn pixels_drawn : Nat)

/-- rasterizer.h `Texture_t`. -/
structure Texture where
  (pixels : Nat → Nat)
  (width height width_mask height_mask : Nat)

structure RasterizerState where
  (fb_attached : Bool)
  (framebuffer zbuffer : Nat → Nat)
  (stats : RasterizerStats)

/-- rasterizer.cpp `EdgeFunction`. -/
def EdgeFunction (v0x v0y v1x v1y px py : Int) : Int :=
  (v1x - v0x) * (py - v0y) - (v1y - v0y) * (px - v0x)

/-- math3d.h `Clampi`. -/
def Clampi (v lo hi : Int) : Int :=
  if v < lo then lo else if hi < v then hi else v

/-- math3d.h `Min3i`. -/
def Min3i (a b c : Int) : Int :=
  let m1 := if b < a then b else a
  if c < m1 then c else m1

/-- math3d.h `Max3i`. -/
def Max3i (a b c : Int) : Int :=
  let m1 := if a < b then b else a
  if m1 < c then c else m1

/-- C's `(uint16_t)` conversion of a `float` depth value. -/
noncomputable def toU16 (r : ℝ) : Nat := ((truncToInt r) % 65536).toNat

/-- The integer points `lo, lo+1, …, hi` of a `for (i = lo; i <= hi; i++)`
loop. -/
def intRange (lo hi : Int) : List Int :=
  (List.range (hi + 1 - lo).toNat).map (fun k => lo + k)

/-- rasterizer.cpp `Texture_Sample`: wrap `u`/`v` into `[0,1)`, scale and
mask into the power-of-two texture. -/
noncomputable def Texture_Sample (tex : Texture) (u v : ℝ) : Nat :=
  let u1 := u - (truncToInt u : ℝ)
  let u2 := if u1 < 0 then u1 + 1 else u1
  let v1 := v - (truncToInt v : ℝ)
  let v2 := if v1 < 0 then v1 + 1 else v1
  let tx := (truncToInt (u2 * tex.width)).toNat &&& tex.width_mask
  let ty := (truncToInt (v2 * tex.height)).toNat &&& tex.height_mask
  tex.pixels (ty * tex.width + tx)

/-- rasterizer.cpp `ColorLerp`: barycentric blend of three RGB565 colors
in expanded channel space, rounded, clamped to channel widths. -/
noncomputable def ColorLerp (c0 c1 c2 : Nat) (b0 b1 b2 : ℝ) : Nat :=
  let r := truncToInt (b0 * (((c0 >>> 11) &&& 0x1F : Nat) : ℝ) +
    b1 * (((c1 >>> 11) &&& 0x1F : Nat) : ℝ) +
    b2 * (((c2 >>> 11) &&& 0x1F : Nat) : ℝ) + 0.5)
  let g := truncToInt (b0 * (((c0 >>> 5) &&& 0x3F : Nat) : ℝ) +
    b1 * (((c1 >>> 5) &&& 0x3F : Nat) : ℝ) +
    b2 * (((c2 >>> 5) &&& 0x3F : Nat) : ℝ) + 0.5)
  let b := truncToInt (b0 * ((c0 &&& 0x1F : Nat) : ℝ) +
    b1 * ((c1 &&& 0x1F : Nat) : ℝ) +
    b2 * ((c2 &&& 0x1F : Nat) : ℝ) + 0.5)
  let r1 := if 31 < r then 31 else r
  let g1 := if 63 < g then 63 else g
  let b1q := if 31 < b then 31 else b
  ((r1.toNat <<< 11) ||| (g1.toNat <<< 5) ||| b1q.toNat)

/-- rasterizer.cpp `ColorModulate`. -/
def ColorModulate (texel light : Nat) : Nat :=
  let tr := (texel >>> 11) &&& 0x1F
  let tg := (texel >>> 5) &&& 0x3F
  let tb := texel &&& 0x1F
  let lr := (light >>> 11) &&& 0x1F
  let lg := (light >>> 5) &&& 0x3F
  let lb := light &&& 0x1F
  ((((tr * lr) >>> 5) <<< 11) ||| (((tg * lg) >>> 6) <<< 5) ||| ((tb * lb) >>> 5))

/-- One frame/depth-buffer pixel write with depth test (the innermost
`if (z16 < zbuffer[idx])` block); the triple carries
(framebuffer, zbuffer, pixels_drawn). -/
noncomputable def depthTestWrite (color565 : Nat) (z : ℝ) (x y : Int)
    (buf : (Nat → Nat) × (Nat → Nat) × Nat) :
    (Nat → Nat) × (Nat → Nat) × Nat :=
  let z16 := toU16 z
  let idx := (y * (DISPLAY_WIDTH : Int) + x).toNat
  if z16 < buf.2.1 idx then
    (fun k => if k = idx then color565 else buf.1 k,
     fun k => if k = idx then z16 else buf.2.1 k,
     buf.2.2 + 1)
  else buf

/-- rasterizer.cpp `Rasterizer_DrawTriangleSolid`. -/
noncomputable def Rasterizer_DrawTriangleSolid (st : RasterizerState)
    (v0 v1 v2 : ScreenVertex) (color : Nat) : RasterizerState :=
  if st.fb_attached = false then st
  else
    let st := { st with stats :=
      { st.stats with triangles_submitted := st.stats.triangles_submitted + 1 } }
    let area := EdgeFunction v0.x v0.y v1.x v1.y v2.x v2.y
    if area ≤ 0 then
      { st with stats :=
        { st.stats with triangles_culled := st.stats.triangles_culled + 1 } }
    else
      let minX := Clampi (Min3i v0.x v1.x v2.x) 0 ((DISPLAY_WIDTH : Int) - 1)
      let maxX := Clampi (Max3i v0.x v1.x v2.x) 0 ((DISPLAY_WIDTH : Int) - 1)
      let minY := Clampi (Min3i v0.y v1.y v2.y) 0 ((DISPLAY_HEIGHT : Int) - 1)
      let maxY := Clampi (Max3i v0.y v1.y v2.y) 0 ((DISPLAY_HEIGHT : Int) - 1)
      if maxX < minX ∨ maxY < minY then
        { st with stats :=
          { st.stats with triangles_culled := st.stats.triangles_culled + 1 } }
      else
        let invArea := 1 / (area : ℝ)
        let final := (intRange minY maxY).foldl (fun acc y =>
          (intRange minX maxX).foldl (fun buf x =>
            let w0 := EdgeFunction v1.x v1.y v2.x v2.y x y
            let w1 := EdgeFunction v2.x v2.y v0.x v0.y x y
            let w2 := EdgeFunction v0.x v0.y v1.x v1.y x y
            if 0 ≤ w0 ∧ 0 ≤ w1 ∧ 0 ≤ w2 then
              let b0 := (w0 : ℝ) * invArea
              let b1 := (w1 : ℝ) * invArea
              let b2 := (w2 : ℝ) * invArea
              let z := b0 * v0.z + b1 * v1.z + b2 * v2.z
              depthTestWrite color z x y buf
            else buf) acc)
          (st.framebuffer, st.zbuffer, st.stats.pixels_drawn)
        { st with
          framebuffer := final.1
          zbuffer := final.2.1
          stats := { st.stats with
            pixels_drawn := final.2.2
            triangles_drawn := st.stats.triangles_drawn + 1 } }

/-- rasterizer.cpp `Rasterizer_DrawTriangle` (textured variant, with the
incremental edge-function evaluation of the source: per-row accumulators
`w0_row..` stepped by `B12/B20/B01`, per-pixel accumulators stepped by
`A12/A20/A01`). -/
noncomputable def Rasterizer_DrawTriangle (st : RasterizerState)
    (v0 v1 v2 : ScreenVertex) (texture : Option Texture) : RasterizerState :=
  if st.fb_attached = false then st
  else
    let st := { st with stats :=
      { st.stats with triangles_submitted := st.stats.triangles_submitted + 1 } }
    let area := EdgeFunction v0.x v0.y v1.x v1.y v2.x v2.y
    if area ≤ 0 then
      { st with stats :=
        { st.stats with triangles_culled := st.stats.triangles_culled + 1 } }
    else
      let minX := Clampi (Min3i v0.x v1.x v2.x) 0 ((DISPLAY_WIDTH : Int) - 1)
      let maxX := Clampi (Max3i v0.x v1.x v2.x) 0 ((DISPLAY_WIDTH : Int) - 1)
      let minY := Clampi (Min3i v0.y v1.y v2.y) 0 ((DISPLAY_HEIGHT : Int) - 1)
      let maxY := Clampi (Max3i v0.y v1.y v2.y) 0 ((DISPLAY_HEIGHT : Int) - 1)
      if maxX < minX ∨ maxY < minY then
        { st with stats :=
          { st.stats with triangles_culled := st.stats.triangles_culled + 1 } }
      else
        let invArea := 1 / (area : ℝ)
        let A12 := v1.y - v2.y
        let B12 := v2.x - v1.x
        let A20 := v2.y - v0.y
        let B20 := v0.x - v2.x
        let A01 := v0.y - v1.y
        let B01 := v1.x - v0.x
        let w0_row := EdgeFunction v1.x v1.y v2.x v2.y minX minY
        let w1_row := EdgeFunction v2.x v2.y v0.x v0.y minX minY
        let w2_row := EdgeFunction v0.x v0.y v1.x v1.y minX minY
        let final := (intRange minY maxY).foldl (fun acc y =>
          let rowOut := (intRange minX maxX).foldl (fun a2 x =>
            let w0 := a2.1
            let w1 := a2.2.1
            let w2 := a2.2.2.1
            let buf := a2.2.2.2
            let buf2 :=
              if 0 ≤ w0 ∧ 0 ≤ w1 ∧ 0 ≤ w2 then
                let b0 := (w0 : ℝ) * invArea
                let b1 := (w1 : ℝ) * invArea
                let b2 := (w2 : ℝ) * invArea
                let z := b0 * v0.z + b1 * v1.z + b2 * v2.z
                let color565 :=
                  match texture with
                  | some tex =>
                    let w := b0 * v0.w_inv + b1 * v1.w_inv + b2 * v2.w_inv
                    let inv_w := 1 / w
                    let u := (b0 * v0.u * v0.w_inv + b1 * v1.u * v1.w_inv +
                      b2 * v2.u * v2.w_inv) * inv_w
                    let vq := (b0 * v0.v * v0.w_inv + b1 * v1.v * v1.w_inv +
                      b2 * v2.v * v2.w_inv) * inv_w
                    let texel := Texture_Sample tex u vq
                    let light := ColorLerp v0.color v1.color v2.color b0 b1 b2
                    ColorModulate texel light
                  | none => ColorLerp v0.color v1.color v2.color b0 b1 b2
                depthTestWrite color565 z x y buf
              else buf
            (w0 + A12, w1 + A20, w2 + A01, buf2))
            (acc.1, acc.2.1, acc.2.2.1, acc.2.2.2)
          (acc.1 + B12, acc.2.1 + B20, acc.2.2.1 + B01, rowOut.2.2.2))
          (w0_row, w1_row, w2_row,
            (st.framebuffer, st.zbuffer, st.stats.pixels_drawn))
        { st with
          framebuffer := final.2.2.2.1
          zbuffer := final.2.2.2.2.1
          stats := { st.stats with
            pixels_drawn := final.2.2.2.2.2
            triangles_drawn := st.stats.triangles_drawn + 1 } }

/-- What a negative-area triangle does to the rasterizer state: no pixel
is written, the frame and depth buffers and `pixels_drawn` are unchanged,
`triangles_culled` goes up by exactly one (and `triangles_drawn` is
unchanged), for both the textured and the solid entry point. -/
def RasterCulledClaim (st : RasterizerState) (v0 v1 v2 : ScreenVertex)
    (color : Nat) (texture : Option Texture) : Prop :=
  ((Rasterizer_DrawTriangleSolid st v0 v1 v2 color).framebuffer =
      st.framebuffer ∧
    (Rasterizer_DrawTriangleSolid st v0 v1 v2 color).zbuffer = st.zbuffer ∧
    (Rasterizer_DrawTriangleSolid st v0 v1 v2 color).stats.pixels_drawn =
      st.stats.pixels_drawn ∧
    (Rasterizer_DrawTriangleSolid st v0 v1 v2 color).stats.triangles_culled =
      st.stats.triangles_culled + 1 ∧
    (Rasterizer_DrawTriangleSolid st v0 v1 v2 color).stats.triangles_drawn =
      st.stats.triangles_drawn) ∧
  ((Rasterizer_DrawTriangle st v0 v1 v2 texture).framebuffer =
      st.framebuffer ∧
    (Rasterizer_DrawTriangle st v0 v1 v2 texture).zbuffer = st.zbuffer ∧
    (Rasterizer_DrawTriangle st v0 v1 v2 texture).stats.pixels_drawn =
      st.stats.pixels_drawn ∧
    (Rasterizer_DrawTriangle st v0 v1 v2 texture).stats.triangles_culled =
      st.stats.triangles_culled + 1 ∧
    (Rasterizer_DrawTriangle st v0 v1 v2 texture).stats.triangles_drawn =
      st.stats.triangles_drawn)

/-- C6 (amended): provided a framebuffer is attached, a triangle whose
integer screen-space signed area (edge function of its three vertices) is
negative writes zero pixels, leaves the frame and depth buffers unchanged
and increments `triangles_culled` by exactly one, in both
`Rasterizer_DrawTriangle` and `Rasterizer_DrawTriangleSolid`. -/
theorem rasterizer_backface_cull (st : RasterizerState)
    (v0 v1 v2 : ScreenVertex) (color : Nat) (texture : Option Texture)
    (hfb : st.fb_attached = true)
    (harea : EdgeFunction v0.x v0.y v1.x v1.y v2.x v2.y < 0) :
    RasterCulledClaim st v0 v1 v2 color texture := by
  have hsolid : Rasterizer_DrawTriangleSolid st v0 v1 v2 color =
      { st with stats :=
        { st.stats with
          triangles_submitted := st.stats.triangles_submitted + 1
          triangles_culled := st.stats.triangles_culled + 1 } } := by
    simp only [Rasterizer_DrawTriangleSolid, hfb, Bool.true_eq_false,
      if_false]
    rw [if_pos (le_of_lt harea)]
  have htex : Rasterizer_DrawTriangle st v0 v1 v2 texture =
      { st with stats :=
        { st.stats with
          triangles_submitted := st.stats.triangles_submitted + 1
          triangles_culled := st.stats.triangles_culled + 1 } } := by
    simp only [Rasterizer_DrawTriangle, hfb, Bool.true_eq_false, if_false]
    rw [if_pos (le_of_lt harea)]
  refine ⟨?_, ?_⟩
  · rw [hsolid]
    exact ⟨rfl, rfl, rfl, rfl, rfl⟩
  · rw [htex]
    exact ⟨rfl, rfl, rfl, rfl, rfl⟩

/-- Back-facing screen triangle `(0,0), (0,1), (1,0)` (signed area −1). -/
def svA : ScreenVertex := ⟨0, 0, 0, 1, 0, 0, 0⟩

def svB : ScreenVertex := ⟨0, 1, 0, 1, 0, 0, 0⟩

def svC : ScreenVertex := ⟨1, 0, 0, 1, 0, 0, 0⟩

/-- Rasterizer state with no attached framebuffer (`Rasterizer_SetDevice`
never called). -/
noncomputable def stRast0 : RasterizerState :=
  ⟨false, fun _ => 0, fun _ => 65535, ⟨0, 0, 0, 0⟩⟩

/-- C6 counterexample to the claim as stated: with no framebuffer
attached, a negative-area triangle submitted to either entry point returns
without touching the statistics, so `triangles_culled` is NOT incremented
by one. -/
theorem rasterizer_cull_counterexample :
    EdgeFunction svA.x svA.y svB.x svB.y svC.x svC.y < 0 ∧
    (Rasterizer_DrawTriangleSolid stRast0 svA svB svC 0).stats.triangles_culled =
      stRast0.stats.triangles_culled ∧
    (Rasterizer_DrawTriangleSolid stRast0 svA svB svC 0).stats.triangles_culled ≠
      stRast0.stats.triangles_culled + 1 ∧
    (Rasterizer_DrawTriangle stRast0 svA svB svC none).stats.triangles_culled ≠
      stRast0.stats.triangles_culled + 1 := by
  refine ⟨by norm_num [EdgeFunction, svA, svB, svC], ?_, ?_, ?_⟩
  · rfl
  · intro h
    exact absurd h (by norm_num [Rasterizer_DrawTriangleSolid, stRast0])
  · intro h
    exact absurd h (by norm_num [Rasterizer_DrawTriangle, stRast0])

/-- Rasterizer state with an attached framebuffer. -/
noncomputable def stRast1 : RasterizerState :=
  ⟨true, fun _ => 0, fun _ => 65535, ⟨0, 0, 0, 0⟩⟩

/-- Witness for `rasterizer_backface_cull` on the concrete back-facing
triangle with an attached framebuffer. -/
theorem rasterizer_backface_cull_witness :
    (stRast1.fb_attached = true ∧
      EdgeFunction svA.x svA.y svB.x svB.y svC.x svC.y < 0) ∧
    RasterCulledClaim stRast1 svA svB svC 0 none :=
  ⟨⟨rfl, by norm_num [EdgeFunction, svA, svB, svC]⟩,
   rasterizer_backface_cull stRast1 svA svB svC 0 none rfl
     (by norm_num [EdgeFunction, svA, svB, svC])⟩

end STMEngine
